import Mathlib

/-!
# FleetBridge: shallow embedding of the fleet simulator and conflict engine

This file embeds the core of the FleetBridge backend (facility.py,
conflict_engine.py, simulator.py, models.py) as executable Lean definitions
and proves, or refutes, the frozen behavioral claims about it.

Modeling conventions, applied uniformly:
- Python floats are modeled as exact rationals; no verified claim depends on
  floating-point rounding.
- Wall-clock time (datetime.now()) is an explicit rational parameter given to
  every operation that reads the clock.
- The transcendental float functions used by the source (math.sqrt, math.cos,
  math.sin, math.atan2 composed with degree conversion) take irrational
  values, so they are collected in a record of abstract rational functions
  threaded through the geometry code; where a concrete evaluation is needed a
  record instance is supplied whose values agree with the true functions on
  every input actually reached, up to a rounding that preserves each
  comparison the code makes.
- Randomness (random.random, random.uniform, random.choice, random.sample) is
  possibilistic: each draw is an explicit parameter, so the embedded
  transition system is a superset of the real executions.
- Python dicts are insertion-ordered association lists; writing an existing
  key updates it in place, writing a fresh key appends.
- Purely presentational fields that no engine logic and no claim ever reads
  (alert title, description, suggested action, rca text; robot trail,
  activity log, error history) are omitted from the embedded records.
-/

/- The Batteries rational arithmetic is shipped irreducible; restore the
default reducibility inside this file so that concrete engine runs can be
evaluated by the decide tactic through the kernel. -/
attribute [local semireducible] Rat.add Rat.sub Rat.mul Rat.inv

namespace FleetBridge

/-- models.py RobotStatus. -/
inductive RobotStatus
  | active
  | idle
  | error
  | charging
  | offline
deriving DecidableEq

/-- models.py AlertSeverity. -/
inductive AlertSeverity
  | critical
  | warning
  | info
  | resolved
deriving DecidableEq

/-- models.py AlertType. -/
inductive AlertType
  | deadlock
  | collision_course
  | congestion
  | battery_critical
  | path_blocked
  | error
deriving DecidableEq

/-- The .value string of each AlertType member. -/
def AlertType.value : AlertType → String
  | .deadlock => "deadlock"
  | .collision_course => "collision_course"
  | .congestion => "congestion"
  | .battery_critical => "battery_critical"
  | .path_blocked => "path_blocked"
  | .error => "error"

/-- models.py Position. -/
structure Position where
  x : ℚ
  y : ℚ
deriving DecidableEq

/-- models.py Task (the unified task record). The enumerated task_type and
status fields are carried as their .value strings. -/
structure Task where
  task_id : String
  task_type : String
  from_station : String
  to_station : String
  status : String
  started_at : ℚ
  eta_seconds : Option ℚ
deriving DecidableEq

/-- models.py ErrorInfo. -/
structure ErrorInfo where
  error_code : String
  vendor_code : String
  name : String
  description : String
  timestamp : ℚ
  resolved : Bool
deriving DecidableEq

/-- models.py UnifiedRobotState (recent_activity, trail and last_updated
omitted: display-only, never read by the conflict engine or a claim). -/
structure UnifiedRobotState where
  id : String
  name : String
  vendor : String
  model : String
  position : Position
  heading : ℚ
  speed : ℚ
  status : RobotStatus
  battery : ℚ
  current_task : Option Task
  last_error : Option ErrorInfo
  zone : String
deriving DecidableEq

/-- models.py Alert (title, description, suggested_action, rca_analysis
omitted: display-only, never read by the engine logic or a claim; the uuid
id default is supplied by the construction sites). -/
structure Alert where
  id : String
  alert_type : AlertType
  severity : AlertSeverity
  affected_robots : List String
  position : Option Position
  acknowledged : Bool
  resolved : Bool
  created_at : ℚ
  acknowledged_at : Option ℚ
  resolved_at : Option ℚ
deriving DecidableEq

/-- Abstract stand-ins for the irrational-valued float functions of the
source. sqrt is math.sqrt; cosDeg d is math.cos(math.radians(d)); sinDeg d
is math.sin(math.radians(d)); atan2Deg dy dx is
math.degrees(math.atan2(dy, dx)). -/
structure GeoFns where
  sqrt : ℚ → ℚ
  cosDeg : ℚ → ℚ
  sinDeg : ℚ → ℚ
  atan2Deg : ℚ → ℚ → ℚ

/-! ## facility.py -/

def GRID_WIDTH : ℚ := 40
def GRID_HEIGHT : ℚ := 30

/-- A zone rectangle from facility.py ZONES. -/
structure ZoneRect where
  x_min : ℚ
  x_max : ℚ
  y_min : ℚ
  y_max : ℚ
deriving DecidableEq

/-- facility.py ZONES, in dict insertion order. -/
def ZONES : List (String × ZoneRect) :=
  [ ("Zone A", ⟨0, 13, 0, 14⟩)
  , ("Zone B", ⟨14, 26, 0, 14⟩)
  , ("Zone C", ⟨27, 39, 0, 14⟩)
  , ("Zone D", ⟨0, 13, 15, 29⟩)
  , ("Zone E", ⟨14, 26, 15, 29⟩)
  , ("Zone F", ⟨27, 39, 15, 29⟩) ]

/-- facility.py STATIONS, in dict insertion order. -/
def STATIONS : List (String × Position) :=
  [ ("Station 1", ⟨3, 3⟩), ("Station 2", ⟨10, 3⟩), ("Station 3", ⟨17, 3⟩)
  , ("Station 4", ⟨24, 3⟩), ("Station 5", ⟨31, 3⟩), ("Station 6", ⟨37, 3⟩)
  , ("Station 7", ⟨3, 12⟩), ("Station 8", ⟨10, 12⟩), ("Station 9", ⟨17, 12⟩)
  , ("Station 10", ⟨24, 12⟩), ("Station 11", ⟨31, 12⟩), ("Station 12", ⟨37, 12⟩)
  , ("Station 13", ⟨3, 20⟩), ("Station 14", ⟨10, 20⟩), ("Station 15", ⟨17, 20⟩)
  , ("Station 16", ⟨24, 20⟩), ("Station 17", ⟨31, 20⟩), ("Station 18", ⟨37, 20⟩)
  , ("Station 19", ⟨3, 27⟩), ("Station 20", ⟨10, 27⟩) ]

/-- facility.py CHARGING_STATIONS, in dict insertion order. -/
def CHARGING_STATIONS : List (String × Position) :=
  [ ("Charger C1", ⟨1, 1⟩), ("Charger C2", ⟨20, 1⟩), ("Charger C3", ⟨38, 1⟩)
  , ("Charger C4", ⟨1, 28⟩), ("Charger C5", ⟨20, 28⟩), ("Charger C6", ⟨38, 28⟩) ]

/-- facility.get_zone_for_position: first zone whose rectangle contains the
point, else "Unknown". -/
def get_zone_for_position (x y : ℚ) : String :=
  match ZONES.find? (fun z =>
      decide (z.2.x_min ≤ x ∧ x ≤ z.2.x_max ∧ z.2.y_min ≤ y ∧ y ≤ z.2.y_max)) with
  | some z => z.1
  | none => "Unknown"

/-- facility.get_nearest_charging_station. The Python loop starts from
best_dist = float inf, so the first station always wins the first
comparison; we therefore fold starting from the first station. -/
def get_nearest_charging_station (g : GeoFns) (x y : ℚ) : String × Position × ℚ :=
  match CHARGING_STATIONS with
  | [] => ("", ⟨0, 0⟩, 0)
  | c :: cs =>
    cs.foldl
      (fun best p =>
        let dist := g.sqrt ((p.2.x - x) ^ 2 + (p.2.y - y) ^ 2)
        if dist < best.2.2 then (p.1, p.2, dist) else best)
      (c.1, c.2, g.sqrt ((c.2.x - x) ^ 2 + (c.2.y - y) ^ 2))

/-- facility.distance: Euclidean distance. -/
def distance (g : GeoFns) (p1 p2 : Position) : ℚ :=
  g.sqrt ((p1.x - p2.x) ^ 2 + (p1.y - p2.y) ^ 2)

/-! ## Python dict as insertion-ordered association list -/

/-- Writing key k: update in place when present, append when fresh
(CPython dict semantics). -/
def dictInsert {β : Type} (k : String) (v : β) (d : List (String × β)) :
    List (String × β) :=
  if (d.lookup k).isSome then
    d.map (fun p => if p.1 = k then (k, v) else p)
  else
    d ++ [(k, v)]

/-- del d[k]: with unique keys, deleting a key is filtering it out. -/
def dictDelete {β : Type} (k : String) (d : List (String × β)) :
    List (String × β) :=
  d.filter (fun p => p.1 ≠ k)

/-! ## conflict_engine.py: constants and alert lifecycle -/

def MAX_ACTIVE_ALERTS : Nat := 8
def COOLDOWN_SECONDS : ℚ := 120
def STALE_SECONDS : ℚ := 90
def RESOLVED_TTL_SECONDS : ℚ := 30

/-- ConflictEngine state: active_alerts keyed by fingerprint, and the
fingerprint cooldown map. -/
structure EngineState where
  active_alerts : List (String × Alert)
  alert_cooldowns : List (String × ℚ)
deriving DecidableEq

/-- The engine before any call. -/
def engine0 : EngineState := { active_alerts := [], alert_cooldowns := [] }

/-- Stable ascending insertion for strings (Python sorted). -/
def insertStr (x : String) : List String → List String
  | [] => [x]
  | y :: ys => if y < x then y :: insertStr x ys else x :: y :: ys

/-- Python sorted on a list of strings. -/
def sortStr : List String → List String
  | [] => []
  | x :: xs => insertStr x (sortStr xs)

/-- "-".join. -/
def joinDash : List String → String
  | [] => ""
  | [x] => x
  | x :: xs => x ++ "-" ++ joinDash xs

/-- ConflictEngine._fingerprint: type value, colon, dash-joined sorted
affected robot ids. -/
def fingerprint (a : Alert) : String :=
  a.alert_type.value ++ ":" ++ joinDash (sortStr a.affected_robots)

/-- ConflictEngine._is_on_cooldown. -/
def is_on_cooldown (s : EngineState) (now : ℚ) (fp : String) : Bool :=
  match s.alert_cooldowns.lookup fp with
  | none => false
  | some t => decide (now - t < COOLDOWN_SECONDS)

/-- Number of tracked alerts with resolved == False. -/
def unresolvedCount (d : List (String × Alert)) : Nat :=
  (d.filter (fun p => !p.2.resolved)).length

/-- The comparison step of Python min(key=created_at): keep the current best
unless the next element is strictly older, so the first minimum wins. -/
def pickOlder (best y : String × Alert) : String × Alert :=
  if y.2.created_at < best.2.created_at then y else best

/-- Python min(key=created_at) over a nonempty list: first element attaining
the minimum. -/
def minByCreated (l : List (String × Alert)) : Option (String × Alert) :=
  match l with
  | [] => none
  | x :: xs => some (xs.foldl pickOlder x)

/-- ConflictEngine._evict_oldest: delete the oldest resolved alert, else the
oldest non-critical alert, else nothing. -/
def evict_oldest (d : List (String × Alert)) : List (String × Alert) :=
  match minByCreated (d.filter (fun p => p.2.resolved)) with
  | some m => dictDelete m.1 d
  | none =>
    match minByCreated (d.filter (fun p => !(p.2.severity = AlertSeverity.critical))) with
    | some m => dictDelete m.1 d
    | none => d

/-- One iteration of the admission loop in ConflictEngine.check_all:
skip when the fingerprint is tracked or on cooldown; otherwise evict when
the unresolved count is at or above the cap, then store and start the
cooldown. -/
def admitOne (now : ℚ) (s : EngineState) (a : Alert) : EngineState :=
  if (s.active_alerts.lookup (fingerprint a)).isSome then s
  else if is_on_cooldown s now (fingerprint a) then s
  else
    { active_alerts :=
        dictInsert (fingerprint a) a
          (if MAX_ACTIVE_ALERTS ≤ unresolvedCount s.active_alerts then
            evict_oldest s.active_alerts
          else s.active_alerts)
      alert_cooldowns := dictInsert (fingerprint a) now s.alert_cooldowns }

/-- The per-entry action of ConflictEngine._auto_resolve_stale. -/
def autoStep (now : ℚ) (current_fps : List String) (p : String × Alert) :
    String × Alert :=
  if p.2.resolved then p
  else if p.1 ∈ current_fps then p
  else if STALE_SECONDS < now - p.2.created_at then
    (p.1, { p.2 with
              resolved := true
              resolved_at := some now
              severity := AlertSeverity.resolved })
  else p

/-- ConflictEngine._auto_resolve_stale. -/
def auto_resolve_stale (now : ℚ) (current_fps : List String) (s : EngineState) :
    EngineState :=
  { s with active_alerts := s.active_alerts.map (autoStep now current_fps) }

/-- ConflictEngine._cleanup_old_alerts: drop resolved alerts older than the
retention window (deletion by fingerprint equals entry filtering because
dict keys are unique). -/
def cleanup_old_alerts (now : ℚ) (s : EngineState) : EngineState :=
  { s with active_alerts := s.active_alerts.filter (fun p =>
      !(p.2.resolved &&
        (match p.2.resolved_at with
         | some rt => decide (RESOLVED_TTL_SECONDS < now - rt)
         | none => false))) }

/-- ConflictEngine.resolve_alert inner loop: mark the first alert with a
matching id resolved. -/
def resolveInList (now : ℚ) (alert_id : String) :
    List (String × Alert) → List (String × Alert) × Bool
  | [] => ([], false)
  | (fp, a) :: rest =>
    if a.id = alert_id then
      ((fp, { a with
                resolved := true
                resolved_at := some now
                severity := AlertSeverity.resolved }) :: rest, true)
    else
      ((fp, a) :: (resolveInList now alert_id rest).1,
        (resolveInList now alert_id rest).2)

/-- ConflictEngine.resolve_alert. -/
def resolve_alert (now : ℚ) (alert_id : String) (s : EngineState) :
    EngineState × Bool :=
  let r := resolveInList now alert_id s.active_alerts
  ({ s with active_alerts := r.1 }, r.2)

/-- ConflictEngine.acknowledge_alert inner loop. -/
def acknowledgeInList (now : ℚ) (alert_id : String) :
    List (String × Alert) → List (String × Alert) × Bool
  | [] => ([], false)
  | (fp, a) :: rest =>
    if a.id = alert_id then
      ((fp, { a with acknowledged := true, acknowledged_at := some now }) :: rest, true)
    else
      let r := acknowledgeInList now alert_id rest
      ((fp, a) :: r.1, r.2)

/-- ConflictEngine.acknowledge_alert. -/
def acknowledge_alert (now : ℚ) (alert_id : String) (s : EngineState) :
    EngineState × Bool :=
  let r := acknowledgeInList now alert_id s.active_alerts
  ({ s with active_alerts := r.1 }, r.2)

/-- The severity_order ranking in get_active_alerts (every member is in the
dict, so the fallback 9 of .get is unreachable). -/
def severityOrder : AlertSeverity → Nat
  | .critical => 0
  | .warning => 1
  | .info => 2
  | .resolved => 3

/-- Strict order on the (severity rank, created_at) sort key. -/
def alertKeyLt (a b : Alert) : Bool :=
  severityOrder a.severity < severityOrder b.severity ||
    (severityOrder a.severity = severityOrder b.severity &&
      a.created_at < b.created_at)

/-- Stable insertion by the sort key (element x goes after every element
strictly smaller, before the first not smaller). -/
def insertAlert (x : Alert) : List Alert → List Alert
  | [] => [x]
  | y :: ys => if alertKeyLt y x then y :: insertAlert x ys else x :: y :: ys

/-- Python list.sort with the (severity rank, created_at) key: stable. -/
def sortAlerts : List Alert → List Alert
  | [] => []
  | x :: xs => insertAlert x (sortAlerts xs)

/-- ConflictEngine.get_active_alerts: unresolved alerts, sorted by severity
rank then creation time, truncated to MAX_ACTIVE_ALERTS. -/
def get_active_alerts (s : EngineState) : List Alert :=
  let alerts := (s.active_alerts.filter (fun p => !p.2.resolved)).map (·.2)
  (sortAlerts alerts).take MAX_ACTIVE_ALERTS

/-! ## conflict_engine.py: detection passes

Each pass takes now (the value of datetime.now() used for created_at) and
returns candidate alerts in the order the source appends them. The uuid
alert ids default to the empty string: no verified claim inspects the id of
a pass-created alert. -/

/-- ConflictEngine._check_robot_errors: one critical alert per robot in
ERROR state. -/
def check_robot_errors (now : ℚ) (robots : List UnifiedRobotState) : List Alert :=
  (robots.filter (fun r => r.status == RobotStatus.error)).map (fun r =>
    { id := ""
      alert_type := AlertType.error
      severity := AlertSeverity.critical
      affected_robots := [r.id]
      position := some r.position
      acknowledged := false
      resolved := false
      created_at := now
      acknowledged_at := none
      resolved_at := none })

/-- Python tuple(sorted([a, b])). -/
def sortPair (a b : String) : String × String :=
  if a < b then (a, b) else (b, a)

/-- The deadlock alert for a pair of robots. -/
def deadlockAlert (now : ℚ) (r1 r2 : UnifiedRobotState) : Alert :=
  { id := ""
    alert_type := AlertType.deadlock
    severity := AlertSeverity.critical
    affected_robots := [r1.id, r2.id]
    position := some r1.position
    acknowledged := false
    resolved := false
    created_at := now
    acknowledged_at := none
    resolved_at := none }

/-- ConflictEngine._check_deadlocks: both robots IDLE or ERROR with a task,
within distance 5; each unordered pair checked once via the checked set. -/
def check_deadlocks (g : GeoFns) (now : ℚ) (robots : List UnifiedRobotState) :
    List Alert :=
  let idle_or_error := robots.filter (fun r =>
    (r.status == RobotStatus.idle || r.status == RobotStatus.error) &&
      r.current_task.isSome)
  (idle_or_error.foldl
    (fun acc r1 =>
      idle_or_error.foldl
        (fun (acc : List Alert × List (String × String)) r2 =>
          if r1.id = r2.id then acc
          else if sortPair r1.id r2.id ∈ acc.2 then acc
          else if 5 < distance g r1.position r2.position then
            (acc.1, acc.2 ++ [sortPair r1.id r2.id])
          else if r1.current_task.isSome && r2.current_task.isSome then
            (acc.1 ++ [deadlockAlert now r1 r2], acc.2 ++ [sortPair r1.id r2.id])
          else (acc.1, acc.2 ++ [sortPair r1.id r2.id]))
        acc)
    (([], []) : List Alert × List (String × String))).1

/-- Projected separation of two robots after t seconds along their current
headings, as in _check_collision_courses. -/
def projectedPair (g : GeoFns) (t : ℚ) (r1 r2 : UnifiedRobotState) :
    Position × Position :=
  ( ⟨r1.position.x + g.cosDeg r1.heading * r1.speed * t,
     r1.position.y + g.sinDeg r1.heading * r1.speed * t⟩
  , ⟨r2.position.x + g.cosDeg r2.heading * r2.speed * t,
     r2.position.y + g.sinDeg r2.heading * r2.speed * t⟩ )

/-- The projected distance at offset t. -/
def projectedDist (g : GeoFns) (t : ℚ) (r1 r2 : UnifiedRobotState) : ℚ :=
  let p := projectedPair g t r1 r2
  g.sqrt ((p.1.x - p.2.x) ^ 2 + (p.1.y - p.2.y) ^ 2)

/-- Collision check for one ordered pair: skip when farther than 15 apart,
else scan offsets 5, 10, 15, 20 and emit one warning at the first offset
whose projected separation is below 2. -/
def collisionForPair (g : GeoFns) (now : ℚ) (r1 r2 : UnifiedRobotState) :
    List Alert :=
  if 15 < distance g r1.position r2.position then []
  else
    match [(5 : ℚ), 10, 15, 20].find? (fun t => projectedDist g t r1 r2 < 2) with
    | none => []
    | some t =>
      [ { id := ""
          alert_type := AlertType.collision_course
          severity := AlertSeverity.warning
          affected_robots := [r1.id, r2.id]
          position := some (projectedPair g t r1 r2).1
          acknowledged := false
          resolved := false
          created_at := now
          acknowledged_at := none
          resolved_at := none } ]

/-- The enumerate loop of _check_collision_courses: each element against all
later elements. -/
def collisionPairs (g : GeoFns) (now : ℚ) :
    List UnifiedRobotState → List Alert
  | [] => []
  | r1 :: rest =>
    (rest.foldl (fun acc r2 => acc ++ collisionForPair g now r1 r2) []) ++
      collisionPairs g now rest

/-- ConflictEngine._check_collision_courses. -/
def check_collision_courses (g : GeoFns) (now : ℚ)
    (robots : List UnifiedRobotState) : List Alert :=
  collisionPairs g now
    (robots.filter (fun r => r.status == RobotStatus.active && decide (0 < r.speed)))

/-- Append id under key zone, creating the key on first sight (dict of
lists, insertion ordered). -/
def zoneAppend (zone id : String) (d : List (String × List String)) :
    List (String × List String) :=
  if (d.lookup zone).isSome then
    d.map (fun p => if p.1 = zone then (p.1, p.2 ++ [id]) else p)
  else d ++ [(zone, [id])]

/-- The zone_robots grouping of _check_congestion: non-OFFLINE robots
grouped by their snapshot zone. -/
def groupZones (robots : List UnifiedRobotState) :
    List (String × List String) :=
  robots.foldl
    (fun d r => if r.status == RobotStatus.offline then d else zoneAppend r.zone r.id d)
    []

/-- ConflictEngine._check_congestion: one warning per zone holding at least
8 non-OFFLINE robots, naming all its occupants. -/
def check_congestion (now : ℚ) (robots : List UnifiedRobotState) : List Alert :=
  ((groupZones robots).filter (fun p => 8 ≤ p.2.length)).map (fun p =>
    { id := ""
      alert_type := AlertType.congestion
      severity := AlertSeverity.warning
      affected_robots := p.2
      position := none
      acknowledged := false
      resolved := false
      created_at := now
      acknowledged_at := none
      resolved_at := none })

/-- The per-minute drain table local to _check_battery_critical, with the
.get default of 1.0 for unknown vendors. -/
def engineDrainRate (vendor : String) : ℚ :=
  match ([ ("Amazon Normal", (4 : ℚ) / 5), ("Balyo", 3 / 5)
         , ("Amazon Internal", 6 / 5) ] : List (String × ℚ)).lookup vendor with
  | some d => d
  | none => 1

/-- ConflictEngine._check_battery_critical: for non-charging, non-offline
robots at 25 percent or below, compare the battery against the percentage
needed to finish the task and reach the nearest charger plus a 5 point
buffer; critical below 10 percent, warning otherwise. Note that a task eta
of 0.0 is falsy in Python and contributes 0 either way. -/
def check_battery_critical (g : GeoFns) (now : ℚ)
    (robots : List UnifiedRobotState) : List Alert :=
  robots.foldl
    (fun acc r =>
      if r.status == RobotStatus.charging || r.status == RobotStatus.offline then acc
      else if decide (25 < r.battery) then acc
      else
        let drain := engineDrainRate r.vendor
        let charger_dist := (get_nearest_charging_station g r.position.x r.position.y).2.2
        let charger_time_min := charger_dist / 1 / 60
        let battery_needed_for_charger := charger_time_min * drain
        let task_battery_needed : ℚ :=
          match r.current_task with
          | some t =>
            match t.eta_seconds with
            | some eta => eta / 60 * drain
            | none => 0
          | none => 0
        let total_needed := task_battery_needed + battery_needed_for_charger + 5
        if decide (r.battery < total_needed) then
          acc ++
            [ { id := ""
                alert_type := AlertType.battery_critical
                severity :=
                  if decide (r.battery < 10) then AlertSeverity.critical
                  else AlertSeverity.warning
                affected_robots := [r.id]
                position := some r.position
                acknowledged := false
                resolved := false
                created_at := now
                acknowledged_at := none
                resolved_at := none } ]
        else acc)
    []

/-- ConflictEngine._check_path_blocked: for each ERROR robot with a recorded
fault, the first other robot that is IDLE or ERROR within distance 3 yields
one warning. -/
def check_path_blocked (g : GeoFns) (now : ℚ)
    (robots : List UnifiedRobotState) : List Alert :=
  (robots.filter (fun r => r.status == RobotStatus.error)).foldl
    (fun acc robot =>
      if robot.last_error.isNone then acc
      else
        match robots.find? (fun other =>
            !(other.id == robot.id) &&
              decide (distance g robot.position other.position < 3) &&
              (other.status == RobotStatus.idle ||
                other.status == RobotStatus.error)) with
        | none => acc
        | some other =>
          acc ++
            [ { id := ""
                alert_type := AlertType.path_blocked
                severity := AlertSeverity.warning
                affected_robots := [robot.id, other.id]
                position := some robot.position
                acknowledged := false
                resolved := false
                created_at := now
                acknowledged_at := none
                resolved_at := none } ])
    []

/-- The candidate list of one check_all cycle: the six passes in source
order. -/
def runChecks (g : GeoFns) (now : ℚ) (robots : List UnifiedRobotState) :
    List Alert :=
  check_robot_errors now robots ++
    check_deadlocks g now robots ++
    check_collision_courses g now robots ++
    check_congestion now robots ++
    check_battery_critical g now robots ++
    check_path_blocked g now robots

/-- The fingerprints detected this cycle (the current_fps set). -/
def detectedFps (g : GeoFns) (now : ℚ) (robots : List UnifiedRobotState) :
    List String :=
  (runChecks g now robots).map fingerprint

/-- The admission loop of check_all over this cycle's candidate list. -/
def admitNew (g : GeoFns) (now : ℚ) (robots : List UnifiedRobotState)
    (s : EngineState) : EngineState :=
  (runChecks g now robots).foldl (admitOne now) s

/-- ConflictEngine.check_all: run the passes, admit genuinely new alerts
(respecting fingerprint dedup, cooldown and the eviction step), auto-resolve
alerts whose fingerprint was not re-detected (the current_fps set is
detectedFps), purge old resolved alerts, and return the candidate list. -/
def check_all (g : GeoFns) (now : ℚ) (robots : List UnifiedRobotState)
    (s : EngineState) : EngineState × List Alert :=
  ( cleanup_old_alerts now
      (auto_resolve_stale now (detectedFps g now robots) (admitNew g now robots s))
  , runChecks g now robots )

/-- A sequence of check_all calls: each element is the call time paired with
the fleet snapshot it observes. -/
def runTrace (g : GeoFns) (s0 : EngineState) :
    List (ℚ × List UnifiedRobotState) → EngineState
  | [] => s0
  | c :: rest => runTrace g (check_all g c.1 c.2 s0).1 rest

/-! ## simulator.py -/

/-- The task dict stored on a RawRobot (keys as produced by _assign_task,
the charging branches, and the assign_task command; catalog_task_id is
present only for the command and is none elsewhere). -/
structure RawTask where
  task_id : String
  task_type : String
  from_station : String
  to_station : String
  status : String
  started_at : ℚ
  eta_seconds : Option ℚ
  catalog_task_id : Option String
deriving DecidableEq

/-- The last_error dict stored on a RawRobot. -/
structure RawError where
  error_code : String
  name : String
  description : String
  timestamp : ℚ
  resolved : Bool
deriving DecidableEq

/-- simulator.py RawRobot (trail, activity, error_history and the unused
stuck_ticks are omitted: bounded history or statistics buffers never read by
the engine logic or a claim). -/
structure RawRobot where
  robot_id : String
  vendor : String
  x : ℚ
  y : ℚ
  battery : ℚ
  heading : ℚ
  speed : ℚ
  status : RobotStatus
  task : Option RawTask
  task_destination : Option Position
  task_origin : Option Position
  last_error : Option RawError
  error_start : Option ℚ
  tasks_completed : Nat
  total_distance : ℚ
  total_error_time : ℚ
  total_charge_time : ℚ
  task_times : List ℚ
deriving DecidableEq

/-- RawRobot.get_drain_rate: percent per 500 ms tick, with the default of
1.0 / 120 for unknown vendors. -/
def get_drain_rate (r : RawRobot) : ℚ :=
  match ([ ("Amazon Normal", (1 : ℚ) / 150), ("Balyo", 1 / 200)
         , ("Amazon Internal", 1 / 100) ] : List (String × ℚ)).lookup r.vendor with
  | some d => d
  | none => 1 / 120

/-- RawRobot.charge_rate: 5 percent per minute at 120 ticks per minute. -/
def charge_rate : ℚ := 1 / 24

/-- RawRobot.__init__ for a fresh robot; battery and heading are the
uniform draws made at construction. -/
def mkRobot (robot_id vendor : String) (x y battery heading : ℚ) : RawRobot :=
  { robot_id := robot_id
    vendor := vendor
    x := x
    y := y
    battery := battery
    heading := heading
    speed := 0
    status := RobotStatus.idle
    task := none
    task_destination := none
    task_origin := none
    last_error := none
    error_start := none
    tasks_completed := 0
    total_distance := 0
    total_error_time := 0
    total_charge_time := 0
    task_times := [] }

/-- Simulator-wide mutable state. -/
structure SimState where
  robots : List (String × RawRobot)
  tick_count : Nat
  task_counter : Nat
deriving DecidableEq

/-- Left-pad a number with zeros to the given width (Python 0-padding
format). -/
def natPad (w n : Nat) : String :=
  let s := toString n
  String.mk (List.replicate (w - s.length) '0') ++ s

/-- FleetSimulator._next_task_id on the task counter. -/
def next_task_id (n : Nat) : String × Nat :=
  ("T-" ++ natPad 4 (n + 1), n + 1)

/-- STATIONS[name]: in the source this indexing only happens with names
drawn from the STATIONS key set, so the default is unreachable there. -/
def stationsGet (n : String) : Position :=
  (STATIONS.lookup n).getD ⟨0, 0⟩

/-- The draws consumed by one _assign_task call: the station pair from
get_random_station_pair, the task type choice, and the cruise speed from
uniform(1.2, 2.8). -/
structure AssignRand where
  from_name : String
  to_name : String
  task_type : String
  speed : ℚ

/-- FleetSimulator._assign_task. -/
def assign_task (rnd : AssignRand) (now : ℚ) (counter : Nat) (r : RawRobot) :
    RawRobot × Nat :=
  let t := next_task_id counter
  ({ r with
      task := some
        { task_id := t.1
          task_type := rnd.task_type
          from_station := rnd.from_name
          to_station := rnd.to_name
          status := "in_progress"
          started_at := now
          eta_seconds := none
          catalog_task_id := none }
      task_destination := some (stationsGet rnd.to_name)
      task_origin := some (stationsGet rnd.from_name)
      status := RobotStatus.active
      speed := rnd.speed }, t.2)

/-- FleetSimulator._complete_task. -/
def complete_task (now : ℚ) (r : RawRobot) : RawRobot :=
  { (match r.task with
     | some t =>
       { r with
           task_times := r.task_times ++ [now - t.started_at]
           tasks_completed := r.tasks_completed + 1
           task := none }
     | none => r) with
      task_destination := none
      task_origin := none
      status := RobotStatus.idle
      speed := 0 }

/-- Python float modulo (sign of the divisor). -/
def qfmod (a b : ℚ) : ℚ := a - b * (⌊a / b⌋ : ℤ)

/-- FleetSimulator._move_robot; jitter is the uniform(-0.15, 0.15) speed
draw of this tick. When the robot is mid-move the source unconditionally
writes the new eta into its task dict; a missing task there would raise in
Python, which is unreachable because every path that sets a destination also
sets a task, so the embedding maps over the optional task. -/
def move_robot (g : GeoFns) (jitter : ℚ) (now : ℚ) (r : RawRobot) : RawRobot :=
  match r.task_destination with
  | none => r
  | some dest =>
    if r.status ≠ RobotStatus.active then r
    else
      let dx := dest.x - r.x
      let dy := dest.y - r.y
      let dist := g.sqrt (dx * dx + dy * dy)
      if dist < 1 then complete_task now r
      else
        let speed := min (7 / 2) (max (1 / 2) (r.speed + jitter))
        let step := min (speed * (1 / 2)) dist
        let heading := qfmod (g.atan2Deg dy dx) 360
        let nx := max 0 (min (GRID_WIDTH - 1) (r.x + dx / dist * step))
        let ny := max 0 (min (GRID_HEIGHT - 1) (r.y + dy / dist * step))
        let actual := g.sqrt ((nx - r.x) ^ 2 + (ny - r.y) ^ 2)
        let remaining := distance g ⟨nx, ny⟩ dest
        { r with
            speed := speed
            heading := heading
            x := nx
            y := ny
            total_distance := r.total_distance + actual
            task := r.task.map (fun t =>
              { t with eta_seconds := some (remaining / max speed (1 / 10)) }) }

/-- The charging update of _handle_battery: clamp at 100 and count the
charge time. -/
def charge_step (r : RawRobot) : RawRobot :=
  { r with
      battery := min 100 (r.battery + charge_rate)
      total_charge_time := r.total_charge_time + 1 / 2 }

/-- The drain update of _handle_battery: ACTIVE and IDLE robots drain (idle
at 30 percent of the rate), clamped at 0; other states are untouched. -/
def drain_step (r : RawRobot) : RawRobot :=
  if r.status = RobotStatus.active ∨ r.status = RobotStatus.idle then
    { r with
        battery := max 0 (r.battery -
          (if r.status = RobotStatus.idle then get_drain_rate r * (3 / 10)
           else get_drain_rate r)) }
  else r

/-- The low-battery auto-charge logic of _handle_battery: below 15 percent
(and not charging or in error), dock when within distance 2 of the nearest
charger, else cancel any task and navigate to it with a synthetic charging
task. -/
def auto_charge (g : GeoFns) (now : ℚ) (counter : Nat) (r : RawRobot) :
    RawRobot × Nat :=
  if r.battery < 15 ∧ r.status ≠ RobotStatus.charging ∧ r.status ≠ RobotStatus.error then
    if (get_nearest_charging_station g r.x r.y).2.2 < 2 then
      ({ r with
          status := RobotStatus.charging
          speed := 0
          task := none
          task_destination := none }, counter)
    else
      ({ r with
          task := some
            { task_id := (next_task_id counter).1
              task_type := "charging"
              from_station := get_zone_for_position r.x r.y
              to_station := (get_nearest_charging_station g r.x r.y).1
              status := "in_progress"
              started_at := now
              eta_seconds := some ((get_nearest_charging_station g r.x r.y).2.2 / 1)
              catalog_task_id := none }
          task_destination := some (get_nearest_charging_station g r.x r.y).2.1
          status := RobotStatus.active
          speed := 1 }, (next_task_id counter).2)
  else (r, counter)

/-- FleetSimulator._handle_battery: charge with clamp at 100 and undock at
95; otherwise drain and run the auto-charge logic. -/
def handle_battery (g : GeoFns) (now : ℚ) (counter : Nat) (r : RawRobot) :
    RawRobot × Nat :=
  if r.status = RobotStatus.charging then
    ( if 95 ≤ (charge_step r).battery then
        { charge_step r with status := RobotStatus.idle, speed := 0 }
      else charge_step r
    , counter )
  else auto_charge g now counter (drain_step r)

/-- A vendor fault catalog entry as consumed by _maybe_generate_error; the
draw from the non-informational pool of the robot vendor is possibilistic. -/
structure ErrSpec where
  code : String
  name : String
  description : String

/-- The draws of one _maybe_generate_error call: whether the fault roll
fires (random.random() against the vendor fault probability) and which
catalog entry was chosen. -/
structure ErrRand where
  happens : Bool
  err : ErrSpec

/-- FleetSimulator._maybe_generate_error. -/
def maybe_generate_error (rnd : ErrRand) (now : ℚ) (r : RawRobot) : RawRobot :=
  if r.status = RobotStatus.error ∨ r.status = RobotStatus.charging ∨
      r.status = RobotStatus.offline then r
  else if !rnd.happens then r
  else
    { r with
        status := RobotStatus.error
        speed := 0
        error_start := some now
        last_error := some
          { error_code := rnd.err.code
            name := rnd.err.name
            description := rnd.err.description
            timestamp := now
            resolved := false } }

/-- FleetSimulator._maybe_resolve_error; dwell is the uniform(10, 60) draw
compared against the elapsed error time. -/
def maybe_resolve_error (dwell now : ℚ) (r : RawRobot) : RawRobot :=
  if r.status ≠ RobotStatus.error then r
  else
    match r.error_start with
    | none => r
    | some t0 =>
      if dwell < now - t0 then
        { r with
            total_error_time := r.total_error_time + 1 / 2
            status := RobotStatus.idle
            speed := 0
            last_error := r.last_error.map (fun e => { e with resolved := true })
            error_start := none }
      else { r with total_error_time := r.total_error_time + 1 / 2 }

/-- All draws consumed by one robot in one tick. -/
structure TickRand where
  dwell : ℚ
  jitter : ℚ
  assignRoll : Bool
  assign : AssignRand
  err : ErrRand

/-- The movement stage of the per-robot tick body: only ACTIVE robots move. -/
def tickMoveStage (g : GeoFns) (jitter now : ℚ) (r : RawRobot) : RawRobot :=
  if r.status = RobotStatus.active then move_robot g jitter now r else r

/-- The task-assignment stage of the per-robot tick body: an idle robot
whose 5 percent roll fired gets a task. -/
def tickAssignStage (a : AssignRand) (roll : Bool) (now : ℚ) (counter : Nat)
    (r : RawRobot) : RawRobot × Nat :=
  if r.status = RobotStatus.idle ∧ roll then assign_task a now counter r
  else (r, counter)

/-- The per-robot body of FleetSimulator.tick (trail recording omitted):
error robots only age their error, offline robots are skipped, everyone
else handles battery, stops there when charging, then moves, possibly picks
up a task, and rolls for a fault. -/
def robotTick (g : GeoFns) (rnd : TickRand) (now : ℚ) (counter : Nat)
    (r : RawRobot) : RawRobot × Nat :=
  if r.status = RobotStatus.error then (maybe_resolve_error rnd.dwell now r, counter)
  else if r.status = RobotStatus.offline then (r, counter)
  else if (handle_battery g now counter r).1.status = RobotStatus.charging then
    handle_battery g now counter r
  else
    ( maybe_generate_error rnd.err now
        (tickAssignStage rnd.assign rnd.assignRoll now (handle_battery g now counter r).2
          (tickMoveStage g rnd.jitter now (handle_battery g now counter r).1)).1
    , (tickAssignStage rnd.assign rnd.assignRoll now (handle_battery g now counter r).2
        (tickMoveStage g rnd.jitter now (handle_battery g now counter r).1)).2 )

/-- FleetSimulator.tick: advance every robot in dict order, threading the
shared task counter. -/
def tick (g : GeoFns) (rnd : String → TickRand) (now : ℚ) (s : SimState) :
    SimState :=
  { robots :=
      (s.robots.foldl
        (fun (acc : List (String × RawRobot) × Nat) p =>
          ( acc.1 ++ [(p.1, (robotTick g (rnd p.1) now acc.2 p.2).1)]
          , (robotTick g (rnd p.1) now acc.2 p.2).2 ))
        ([], s.task_counter)).1
    tick_count := s.tick_count + 1
    task_counter :=
      (s.robots.foldl
        (fun (acc : List (String × RawRobot) × Nat) p =>
          ( acc.1 ++ [(p.1, (robotTick g (rnd p.1) now acc.2 p.2).1)]
          , (robotTick g (rnd p.1) now acc.2 p.2).2 ))
        ([], s.task_counter)).2 }

/-- The draws consumed by _initialize_fleet: per-robot battery and heading
uniforms, the random.sample of robots that start with a task, and the
per-robot _assign_task draws. -/
structure InitRand where
  battery : String → ℚ
  heading : String → ℚ
  sample : List String
  assign : String → AssignRand

def arPositions : List (ℚ × ℚ) :=
  [(5, 5), (12, 5), (5, 10), (12, 10), (18, 5), (25, 5), (18, 10), (25, 10)]

def balyoPositions : List (ℚ × ℚ) :=
  [ (3, 17), (10, 17), (17, 17), (24, 17), (31, 17), (37, 17)
  , (3, 24), (10, 24), (17, 24), (24, 24), (31, 24), (37, 24) ]

def amznPositions : List (ℚ × ℚ) :=
  [(8, 7), (20, 15), (32, 7), (20, 22)]

/-- Build one vendor block of the initial fleet. -/
def initBlock (rnd : InitRand) (pre vendor : String) (ps : List (ℚ × ℚ)) :
    List (String × RawRobot) :=
  ps.enum.map (fun e =>
    let rid := pre ++ natPad 3 (e.1 + 1)
    (rid, mkRobot rid vendor e.2.1 e.2.2 (rnd.battery rid) (rnd.heading rid)))

/-- The base fleet of _initialize_fleet, before initial task assignment. -/
def initBase (rnd : InitRand) : List (String × RawRobot) :=
  initBlock rnd "AR-" "Amazon Normal" arPositions ++
    initBlock rnd "BALYO-" "Balyo" balyoPositions ++
    initBlock rnd "AMZN-" "Amazon Internal" amznPositions

/-- One step of the initial task-assignment loop over the sampled robots. -/
def initAssignStep (rnd : InitRand) (now : ℚ)
    (acc : List (String × RawRobot) × Nat) (id : String) :
    List (String × RawRobot) × Nat :=
  match acc.1.lookup id with
  | some r =>
    ( dictInsert id (assign_task (rnd.assign id) now acc.2 r).1 acc.1
    , (assign_task (rnd.assign id) now acc.2 r).2 )
  | none => acc

/-- FleetSimulator._initialize_fleet: 8 Amazon Normal, 12 Balyo, 4 Amazon
Internal robots, then tasks assigned to the sampled robots. -/
def init_fleet (rnd : InitRand) (now : ℚ) : SimState :=
  { robots := (rnd.sample.foldl (initAssignStep rnd now) (initBase rnd, 0)).1
    tick_count := 0
    task_counter := (rnd.sample.foldl (initAssignStep rnd now) (initBase rnd, 0)).2 }

/-! ## simulator.py command_robot -/

/-- The kwargs of command_robot (assign_task reads these four). -/
structure CmdKwargs where
  from_station : Option String
  to_station : Option String
  task_type : Option String
  catalog_task_id : Option String

/-- The command result: the success flag and the failure message; command
specific payload fields (charging_target, task_id, destination, ...) are
omitted, no claim reads them. -/
structure CmdResult where
  success : Bool
  message : Option String
deriving DecidableEq

/-- The draws consumed by command_robot: the resume speed uniform, the
assign_task station auto-picks (two get_task_stations calls), the
random.choice fallback when from and to coincide, and the task speed
uniform. -/
structure CmdRand where
  resumeSpeed : ℚ
  assignSpeed : ℚ
  autoFrom : String
  autoTo : String
  toChoice : String

/-- A TaskDef of task_catalog.py restricted to the fields command_robot
reads. -/
structure TaskDefL where
  name : String
  speed_range : ℚ × ℚ
deriving DecidableEq

/-- task_catalog.py CATALOG_BY_ID (name and speed_range only). -/
def CATALOG_BY_ID : List (String × TaskDefL) :=
  [ ("move_pod", ⟨"Move Inventory Pod", (1, 2)⟩)
  , ("transport_bin", ⟨"Transport Bin/Tote", (6 / 5, 5 / 2)⟩)
  , ("stow_inventory", ⟨"Stow Inventory", (1, 9 / 5)⟩)
  , ("pick_item", ⟨"Pick Item", (4 / 5, 3 / 2)⟩)
  , ("present_to_picker", ⟨"Present to Picker", (1, 11 / 5)⟩)
  , ("inter_area_transport", ⟨"Inter-Area Transport", (3 / 2, 3)⟩)
  , ("packing_assist", ⟨"Packing Assist", (1, 2)⟩)
  , ("sort_package", ⟨"Sort Package", (3 / 2, 7 / 2)⟩)
  , ("outbound_sort", ⟨"Outbound Sort", (1, 2)⟩)
  , ("consolidate_order", ⟨"Consolidate Order", (1, 5 / 2)⟩)
  , ("receive_inbound", ⟨"Receive Inbound", (4 / 5, 9 / 5)⟩)
  , ("safety_patrol", ⟨"Safety Patrol", (1 / 2, 6 / 5)⟩)
  , ("high_bay_access", ⟨"High-Bay Retrieval", (3 / 5, 3 / 2)⟩) ]

/-- Python truthiness of an optional string. -/
def optTruthy : Option String → Bool
  | none => false
  | some s => !s.isEmpty

/-- name in STATIONS. -/
def stationKnown (n : String) : Bool :=
  (STATIONS.lookup n).isSome

/-- Replace one robot in the fleet dict. -/
def putRobot (s : SimState) (id : String) (r : RawRobot) : SimState :=
  { s with robots := dictInsert id r s.robots }

/-- FleetSimulator.command_robot: the five commands plus the not-found and
unknown-command failures. -/
def command_robot (g : GeoFns) (rnd : CmdRand) (now : ℚ) (s : SimState)
    (robot_id command : String) (kw : CmdKwargs) : SimState × CmdResult :=
  match s.robots.lookup robot_id with
  | none => (s, ⟨false, some "Robot not found"⟩)
  | some robot =>
    if command = "pause" then
      if robot.status = RobotStatus.active then
        (putRobot s robot_id { robot with status := RobotStatus.idle, speed := 0 },
          ⟨true, none⟩)
      else (s, ⟨false, some "Robot is not active"⟩)
    else if command = "resume" then
      if robot.status = RobotStatus.idle ∧ robot.task_destination.isSome then
        (putRobot s robot_id
            { robot with status := RobotStatus.active, speed := rnd.resumeSpeed },
          ⟨true, none⟩)
      else (s, ⟨false, some "Robot has no destination to resume to"⟩)
    else if command = "send_to_charging" then
      let n := get_nearest_charging_station g robot.x robot.y
      let t := next_task_id s.task_counter
      let robot :=
        { robot with
            task := some
              { task_id := t.1
                task_type := "charging"
                from_station := get_zone_for_position robot.x robot.y
                to_station := n.1
                status := "in_progress"
                started_at := now
                eta_seconds := some (n.2.2 / 1)
                catalog_task_id := none }
            task_destination := some n.2.1
            status := RobotStatus.active
            speed := 3 / 2 }
      ({ s with robots := dictInsert robot_id robot s.robots, task_counter := t.2 },
        ⟨true, none⟩)
    else if command = "assign_task" then
      let task_type := kw.task_type.getD "transport"
      let cat :=
        if optTruthy kw.catalog_task_id then
          CATALOG_BY_ID.lookup (kw.catalog_task_id.getD "")
        else none
      let task_label := match cat with | some c => c.name | none => task_type
      let from0 :=
        if optTruthy kw.from_station && stationKnown (kw.from_station.getD "") then
          kw.from_station.getD ""
        else rnd.autoFrom
      let to0 :=
        if optTruthy kw.to_station && stationKnown (kw.to_station.getD "") then
          kw.to_station.getD ""
        else rnd.autoTo
      let to1 := if from0 = to0 then rnd.toChoice else to0
      let t := next_task_id s.task_counter
      let robot :=
        { robot with
            task := some
              { task_id := t.1
                task_type := task_label
                from_station := from0
                to_station := to1
                status := "in_progress"
                started_at := now
                eta_seconds := none
                catalog_task_id := kw.catalog_task_id }
            task_destination := some (stationsGet to1)
            task_origin := some (stationsGet from0)
            status := RobotStatus.active
            speed := rnd.assignSpeed }
      ({ s with robots := dictInsert robot_id robot s.robots, task_counter := t.2 },
        ⟨true, none⟩)
    else if command = "clear_error" then
      if robot.status = RobotStatus.error then
        (putRobot s robot_id
            { robot with
                status := RobotStatus.idle
                speed := 0
                last_error := robot.last_error.map (fun e => { e with resolved := true })
                error_start := none },
          ⟨true, none⟩)
      else (s, ⟨false, some "Robot has no active error"⟩)
    else (s, ⟨false, some ("Unknown command: " ++ command)⟩)

/-- The reachable simulator states: the initial fleet (with battery draws
inside the union of the uniform supports used at initialization), closed
under ticks and commands with arbitrary draws. A superset of the real
executions, as the draws are unconstrained beyond the battery support. -/
inductive Reachable (g : GeoFns) : SimState → Prop
  | base (rnd : InitRand) (now : ℚ)
      (hbat : ∀ id, 30 ≤ rnd.battery id ∧ rnd.battery id ≤ 100) :
      Reachable g (init_fleet rnd now)
  | tickStep (s : SimState) (rnd : String → TickRand) (now : ℚ) :
      Reachable g s → Reachable g (tick g rnd now s)
  | cmdStep (s : SimState) (rnd : CmdRand) (now : ℚ)
      (robot_id command : String) (kw : CmdKwargs) :
      Reachable g s →
      Reachable g (command_robot g rnd now s robot_id command kw).1

/-! ## Concrete instances for counterexamples and witnesses -/

/-- A GeoFns instance for runs in which the geometry functions are provably
never applied (no pair comparisons, no movement): all zero. -/
def geo0 : GeoFns :=
  { sqrt := fun _ => 0
    cosDeg := fun _ => 0
    sinDeg := fun _ => 0
    atan2Deg := fun _ _ => 0 }

/-- A GeoFns instance whose sqrt agrees with the true square root on the
twelve squared charger distances reached by the battery-critical scenarios:
exactly on the perfect squares 3600 (= 60 squared), 7569 (= 87 squared) and
57600 (= 240 squared), and rounded to the nearest integer on the others,
which preserves every comparison the code makes (each is well above the
respective minimum). -/
def geoC6 : GeoFns :=
  { sqrt := fun q =>
      if q = 3600 then 60
      else if q = 7569 then 87
      else if q = 3961 then 63
      else if q = 3924 then 63
      else if q = 7930 then 89
      else if q = 7893 then 89
      else if q = 57600 then 240
      else if q = 57961 then 241
      else if q = 57924 then 241
      else if q = 71289 then 267
      else if q = 71650 then 268
      else if q = 71613 then 268
      else 0
    cosDeg := fun _ => 0
    sinDeg := fun _ => 0
    atan2Deg := fun _ _ => 0 }

/-- A snapshot of a robot in ERROR state with no recorded fault details, no
task, and a healthy battery: it feeds only the robot-error and congestion
passes, so no geometry is evaluated on it. -/
def errSnap (id : String) (x y : ℚ) : UnifiedRobotState :=
  { id := id
    name := id
    vendor := "Balyo"
    model := "Balyo B-Matic"
    position := ⟨x, y⟩
    heading := 0
    speed := 0
    status := RobotStatus.error
    battery := 80
    current_task := none
    last_error := none
    zone := get_zone_for_position x y }

/-- Nine such robots spread across the six zones (at most two per zone, so
the congestion pass stays silent). -/
def nineErrSnaps : List UnifiedRobotState :=
  [ errSnap "G-001" 1 1, errSnap "G-002" 15 1, errSnap "G-003" 28 1
  , errSnap "G-004" 1 16, errSnap "G-005" 15 16, errSnap "G-006" 28 16
  , errSnap "G-007" 2 2, errSnap "G-008" 16 2, errSnap "G-009" 29 2 ]

/-- A single-robot snapshot used by the C3 and C4 scenarios. -/
def oneErrSnap : List UnifiedRobotState :=
  [errSnap "H-001" 1 1]

/-- An unresolved critical tracked alert for one robot, as stored by the
admission loop. -/
def critAlert (rid : String) (t : ℚ) : Alert :=
  { id := "al-" ++ rid
    alert_type := AlertType.error
    severity := AlertSeverity.critical
    affected_robots := [rid]
    position := none
    acknowledged := false
    resolved := false
    created_at := t
    acknowledged_at := none
    resolved_at := none }

/-- An engine state holding eight unresolved critical alerts: the unresolved
count is at the cap and no entry is an eviction candidate. -/
def fullCritical : EngineState :=
  { active_alerts :=
      [ ("error:R1", critAlert "R1" 0), ("error:R2", critAlert "R2" 1)
      , ("error:R3", critAlert "R3" 2), ("error:R4", critAlert "R4" 3)
      , ("error:R5", critAlert "R5" 4), ("error:R6", critAlert "R6" 5)
      , ("error:R7", critAlert "R7" 6), ("error:R8", critAlert "R8" 7) ]
    alert_cooldowns := [] }

/-- The new candidate arriving at the full engine of the eviction scenarios. -/
def candR9 : Alert := critAlert "R9" 8

/-- The battery-critical scenario robot of the spec: battery 8, no task,
an unlisted vendor (so the drain table default of 1.0 percent per minute
applies), positioned so that the nearest charger (Charger C2) is exactly 60
units away. -/
def c6robot : UnifiedRobotState :=
  { id := "AMR-X"
    name := "AMR-X"
    vendor := "Acme"
    model := "Acme-1"
    position := ⟨20, -59⟩
    heading := 0
    speed := 0
    status := RobotStatus.idle
    battery := 8
    current_task := none
    last_error := none
    zone := "Unknown" }

/-- The same robot with the nearest charger 240 units away. -/
def c6robotFar : UnifiedRobotState :=
  { c6robot with position := ⟨20, -239⟩ }

/-- Eight non-offline robots whose x coordinate 13.5 lies strictly between
the x_max of Zone A and the x_min of Zone B, with the zone field computed
exactly as the adapters compute it (get_zone_for_position of the snapshot
position). -/
def gapRobot (id : String) (y : ℚ) : UnifiedRobotState :=
  { id := id
    name := id
    vendor := "Balyo"
    model := "Balyo B-Matic"
    position := ⟨27 / 2, y⟩
    heading := 0
    speed := 0
    status := RobotStatus.idle
    battery := 80
    current_task := none
    last_error := none
    zone := get_zone_for_position (27 / 2) y }

def gapRobots : List UnifiedRobotState :=
  [ gapRobot "U-001" 1, gapRobot "U-002" 2, gapRobot "U-003" 3
  , gapRobot "U-004" 4, gapRobot "U-005" 5, gapRobot "U-006" 6
  , gapRobot "U-007" 7, gapRobot "U-008" 8 ]

/-- An engine state holding one resolvable alert, for the resolve scenarios. -/
def oneAlertState : EngineState :=
  { active_alerts :=
      [ ("congestion:R1", { critAlert "R1" 0 with
                              id := "A1"
                              alert_type := AlertType.congestion
                              severity := AlertSeverity.warning }) ]
    alert_cooldowns := [] }

/-- Concrete initialization draws: battery 50 and heading 0 everywhere, the
first twelve Balyo robots sampled for initial tasks, each sent from
Station 1 to Station 2 at speed 2. Every draw is inside the support of the
corresponding random call of the source. -/
def initR0 : InitRand :=
  { battery := fun _ => 50
    heading := fun _ => 0
    sample :=
      [ "BALYO-001", "BALYO-002", "BALYO-003", "BALYO-004", "BALYO-005"
      , "BALYO-006", "BALYO-007", "BALYO-008", "BALYO-009", "BALYO-010"
      , "BALYO-011", "BALYO-012" ]
    assign := fun _ =>
      { from_name := "Station 1", to_name := "Station 2"
        task_type := "pickup", speed := 2 } }

/-- Command draws for the concrete command calls (the pause path reads none
of them). -/
def cmdR0 : CmdRand :=
  { resumeSpeed := 2
    assignSpeed := 2
    autoFrom := "Station 1"
    autoTo := "Station 2"
    toChoice := "Station 3" }

/-- Empty kwargs. -/
def kw0 : CmdKwargs :=
  { from_station := none, to_station := none
    task_type := none, catalog_task_id := none }

/-! ## Association list and eviction lemmas -/

lemma lookup_mem {β : Type} {d : List (String × β)} {k : String} {v : β}
    (h : d.lookup k = some v) : (k, v) ∈ d := by
  induction d with
  | nil => simp [List.lookup] at h
  | cons p rest ih =>
    obtain ⟨p1, p2⟩ := p
    rw [List.lookup] at h
    by_cases hk : k = p1
    · subst hk
      simp at h
      subst h
      exact List.mem_cons_self _ _
    · have : (k == p1) = false := beq_false_of_ne hk
      rw [this] at h
      exact List.mem_cons_of_mem _ (ih h)

lemma dictInsert_mem {β : Type} {k : String} {v : β} {d : List (String × β)}
    {p : String × β} (h : p ∈ dictInsert k v d) :
    p ∈ d ∨ p = (k, v) := by
  unfold dictInsert at h
  split at h
  · rcases List.mem_map.1 h with ⟨q, hq, hqe⟩
    by_cases hk : q.1 = k
    · right
      rw [if_pos hk] at hqe
      exact hqe.symm
    · left
      rw [if_neg hk] at hqe
      exact hqe ▸ hq
  · rcases List.mem_append.1 h with h1 | h1
    · exact Or.inl h1
    · right
      simpa using h1

lemma dictInsert_of_lookup_none {β : Type} {k : String} {v : β}
    {d : List (String × β)} (h : d.lookup k = none) :
    dictInsert k v d = d ++ [(k, v)] := by
  unfold dictInsert
  rw [h]
  simp

lemma mem_dictDelete {β : Type} {k : String} {d : List (String × β)}
    {p : String × β} (h : p ∈ dictDelete k d) : p ∈ d :=
  (List.mem_filter.1 h).1

lemma lookup_filter_none {β : Type} {k : String} {d : List (String × β)}
    (f : String × β → Bool) (h : d.lookup k = none) :
    (d.filter f).lookup k = none := by
  induction d with
  | nil => simp
  | cons p rest ih =>
    obtain ⟨p1, p2⟩ := p
    rw [List.lookup] at h
    by_cases hk : k = p1
    · subst hk
      simp at h
    · have hbeq : (k == p1) = false := beq_false_of_ne hk
      rw [hbeq] at h
      rw [List.filter]
      cases f (p1, p2) with
      | true =>
        rw [List.lookup, hbeq]
        exact ih h
      | false => exact ih h

lemma mem_evict_oldest {d : List (String × Alert)} {p : String × Alert}
    (h : p ∈ evict_oldest d) : p ∈ d := by
  unfold evict_oldest at h
  split at h
  · exact mem_dictDelete h
  · split at h
    · exact mem_dictDelete h
    · exact h

lemma evict_oldest_lookup_none {k : String} {d : List (String × Alert)}
    (h : d.lookup k = none) : (evict_oldest d).lookup k = none := by
  unfold evict_oldest
  split
  · exact lookup_filter_none _ h
  · split
    · exact lookup_filter_none _ h
    · exact h

lemma pickOlder_fold_spec (xs : List (String × Alert)) :
    ∀ acc : String × Alert,
      (xs.foldl pickOlder acc = acc ∨ xs.foldl pickOlder acc ∈ xs) ∧
        (xs.foldl pickOlder acc).2.created_at ≤ acc.2.created_at ∧
        ∀ e ∈ xs, (xs.foldl pickOlder acc).2.created_at ≤ e.2.created_at := by
  induction xs with
  | nil => intro acc; simp
  | cons y ys ih =>
    intro acc
    have hstep : ys.foldl pickOlder (pickOlder acc y) =
        (y :: ys).foldl pickOlder acc := rfl
    rcases ih (pickOlder acc y) with ⟨hmem, hle, hall⟩
    have hpick_le_acc : (pickOlder acc y).2.created_at ≤ acc.2.created_at := by
      unfold pickOlder
      split
      · exact le_of_lt (by assumption)
      · exact le_refl _
    have hpick_le_y : (pickOlder acc y).2.created_at ≤ y.2.created_at := by
      unfold pickOlder
      split
      · exact le_refl _
      · exact le_of_not_lt (by assumption)
    refine ⟨?_, ?_, ?_⟩
    · rw [← hstep]
      rcases hmem with h1 | h1
      · rw [h1]
        unfold pickOlder
        split
        · exact Or.inr (List.mem_cons_self _ _)
        · exact Or.inl rfl
      · exact Or.inr (List.mem_cons_of_mem _ h1)
    · rw [← hstep]
      exact le_trans hle hpick_le_acc
    · intro e he
      rw [← hstep]
      rcases List.mem_cons.1 he with h1 | h1
      · subst h1
        exact le_trans hle hpick_le_y
      · exact hall e h1

lemma minByCreated_spec {l : List (String × Alert)} {m : String × Alert}
    (h : minByCreated l = some m) :
    m ∈ l ∧ ∀ e ∈ l, m.2.created_at ≤ e.2.created_at := by
  match l, h with
  | x :: xs, h =>
    have hm : xs.foldl pickOlder x = m := by
      unfold minByCreated at h
      exact Option.some.inj h
    rcases pickOlder_fold_spec xs x with ⟨hmem, hle, hall⟩
    constructor
    · rcases hmem with h1 | h1
      · rw [hm] at h1
        exact h1 ▸ List.mem_cons_self _ _
      · exact List.mem_cons_of_mem _ (hm ▸ h1)
    · intro e he
      rcases List.mem_cons.1 he with h1 | h1
      · subst h1
        exact hm ▸ hle
      · exact hm ▸ hall e h1

lemma minByCreated_eq_none {l : List (String × Alert)} :
    minByCreated l = none ↔ l = [] := by
  cases l <;> simp [minByCreated]

/-! ## Admission, auto-resolve and cleanup lemmas -/

lemma admitOne_mem {now : ℚ} {s : EngineState} {a : Alert} {p : String × Alert}
    (h : p ∈ (admitOne now s a).active_alerts) :
    p ∈ s.active_alerts ∨ p = (fingerprint a, a) := by
  unfold admitOne at h
  by_cases h1 : (s.active_alerts.lookup (fingerprint a)).isSome = true
  · rw [if_pos h1] at h
    exact Or.inl h
  · rw [if_neg h1] at h
    by_cases h2 : is_on_cooldown s now (fingerprint a) = true
    · rw [if_pos h2] at h
      exact Or.inl h
    · rw [if_neg h2] at h
      rcases dictInsert_mem h with h3 | h3
      · by_cases h4 : MAX_ACTIVE_ALERTS ≤ unresolvedCount s.active_alerts
        · rw [if_pos h4] at h3
          exact Or.inl (mem_evict_oldest h3)
        · rw [if_neg h4] at h3
          exact Or.inl h3
      · exact Or.inr h3

lemma admitFold_mem {now : ℚ} {l : List Alert} :
    ∀ {s : EngineState} {p : String × Alert},
      p ∈ (l.foldl (admitOne now) s).active_alerts →
      p ∈ s.active_alerts ∨ ∃ c ∈ l, p = (fingerprint c, c) := by
  induction l with
  | nil => intro s p h; exact Or.inl h
  | cons c cs ih =>
    intro s p h
    rcases ih (s := admitOne now s c) h with h1 | h1
    · rcases admitOne_mem h1 with h2 | h2
      · exact Or.inl h2
      · exact Or.inr ⟨c, List.mem_cons_self _ _, h2⟩
    · rcases h1 with ⟨c2, hc2, he⟩
      exact Or.inr ⟨c2, List.mem_cons_of_mem _ hc2, he⟩

lemma autoStep_fst (now : ℚ) (cur : List String) (p : String × Alert) :
    (autoStep now cur p).1 = p.1 := by
  unfold autoStep
  split
  · rfl
  · split
    · rfl
    · split <;> rfl

lemma autoStep_created (now : ℚ) (cur : List String) (p : String × Alert) :
    (autoStep now cur p).2.created_at = p.2.created_at := by
  unfold autoStep
  split
  · rfl
  · split
    · rfl
    · split <;> rfl

lemma autoStep_of_mem_cur {now : ℚ} {cur : List String} {p : String × Alert}
    (h : p.1 ∈ cur) : autoStep now cur p = p := by
  unfold autoStep
  by_cases h1 : p.2.resolved = true
  · rw [if_pos h1]
  · rw [if_neg h1, if_pos h]

lemma autoStep_of_resolved {now : ℚ} {cur : List String} {p : String × Alert}
    (h : p.2.resolved = true) : autoStep now cur p = p := by
  unfold autoStep
  rw [if_pos h]

lemma autoStep_resolves {now : ℚ} {cur : List String} {p : String × Alert}
    (hcur : p.1 ∉ cur) (hage : STALE_SECONDS < now - p.2.created_at) :
    (autoStep now cur p).2.resolved = true := by
  unfold autoStep
  by_cases h1 : p.2.resolved = true
  · rw [if_pos h1]
    exact h1
  · rw [if_neg h1, if_neg hcur, if_pos hage]

lemma autoStep_keeps_unresolved {now : ℚ} {cur : List String}
    {p : String × Alert} (h : p.2.resolved = false) (hcur : p.1 ∈ cur) :
    (autoStep now cur p).2.resolved = false := by
  rw [autoStep_of_mem_cur hcur]
  exact h

lemma auto_resolve_stale_mem {now : ℚ} {cur : List String} {s : EngineState}
    {p : String × Alert} (h : p ∈ (auto_resolve_stale now cur s).active_alerts) :
    ∃ a1, (p.1, a1) ∈ s.active_alerts ∧ p = autoStep now cur (p.1, a1) := by
  unfold auto_resolve_stale at h
  rcases List.mem_map.1 h with ⟨q, hq, hqe⟩
  refine ⟨q.2, ?_, ?_⟩
  · have : p.1 = q.1 := by rw [← hqe, autoStep_fst]
    rw [this]
    exact hq
  · have h1 : p.1 = q.1 := by rw [← hqe, autoStep_fst]
    rw [h1]
    exact hqe.symm

lemma cleanup_mem {now : ℚ} {s : EngineState} {p : String × Alert}
    (h : p ∈ (cleanup_old_alerts now s).active_alerts) :
    p ∈ s.active_alerts := by
  unfold cleanup_old_alerts at h
  exact (List.mem_filter.1 h).1

/-! ## Freshness of the candidate alerts -/

/-- A candidate produced in the cycle at time now: stamped with that time
and unresolved. -/
def freshAt (now : ℚ) (a : Alert) : Prop :=
  a.created_at = now ∧ a.resolved = false

lemma foldl_pred {α : Type} (P : Alert → Prop) (f : List Alert → α → List Alert)
    (hf : ∀ acc x, (∀ b ∈ acc, P b) → ∀ b ∈ f acc x, P b) :
    ∀ (l : List α) (acc), (∀ b ∈ acc, P b) → ∀ b ∈ l.foldl f acc, P b := by
  intro l
  induction l with
  | nil => intro acc hacc b hb; exact hacc b hb
  | cons x xs ih => intro acc hacc b hb; exact ih (f acc x) (hf acc x hacc) b hb

lemma foldl_pair_pred {α γ : Type} (P : Alert → Prop)
    (f : (List Alert × γ) → α → (List Alert × γ))
    (hf : ∀ acc x, (∀ b ∈ acc.1, P b) → ∀ b ∈ (f acc x).1, P b) :
    ∀ (l : List α) (acc), (∀ b ∈ acc.1, P b) → ∀ b ∈ (l.foldl f acc).1, P b := by
  intro l
  induction l with
  | nil => intro acc hacc b hb; exact hacc b hb
  | cons x xs ih => intro acc hacc b hb; exact ih (f acc x) (hf acc x hacc) b hb

lemma check_robot_errors_fresh {now : ℚ} {robots : List UnifiedRobotState} :
    ∀ a ∈ check_robot_errors now robots, freshAt now a := by
  intro a ha
  rcases List.mem_map.1 ha with ⟨r, _, he⟩
  rw [← he]
  exact ⟨rfl, rfl⟩

lemma check_deadlocks_fresh {g : GeoFns} {now : ℚ}
    {robots : List UnifiedRobotState} :
    ∀ a ∈ check_deadlocks g now robots, freshAt now a := by
  intro a ha
  unfold check_deadlocks at ha
  refine foldl_pair_pred (freshAt now) _ ?_ _ _ (by simp) a ha
  intro acc r1 hacc b hb
  refine foldl_pair_pred (freshAt now) _ ?_ _ _ hacc b hb
  intro acc2 r2 hacc2 b2 hb2
  by_cases h1 : r1.id = r2.id
  · rw [if_pos h1] at hb2; exact hacc2 b2 hb2
  · rw [if_neg h1] at hb2
    by_cases h2 : sortPair r1.id r2.id ∈ acc2.2
    · rw [if_pos h2] at hb2; exact hacc2 b2 hb2
    · rw [if_neg h2] at hb2
      by_cases h3 : 5 < distance g r1.position r2.position
      · rw [if_pos h3] at hb2; exact hacc2 b2 hb2
      · rw [if_neg h3] at hb2
        by_cases h4 : (r1.current_task.isSome && r2.current_task.isSome) = true
        · rw [if_pos h4] at hb2
          rcases List.mem_append.1 hb2 with h5 | h5
          · exact hacc2 b2 h5
          · simp at h5
            rw [h5]
            exact ⟨rfl, rfl⟩
        · rw [if_neg h4] at hb2; exact hacc2 b2 hb2

lemma collisionForPair_fresh {g : GeoFns} {now : ℚ}
    {r1 r2 : UnifiedRobotState} :
    ∀ a ∈ collisionForPair g now r1 r2, freshAt now a := by
  intro a ha
  unfold collisionForPair at ha
  split at ha
  · simp at ha
  · split at ha
    · simp at ha
    · simp at ha
      rw [ha]
      exact ⟨rfl, rfl⟩

lemma collisionPairs_fresh {g : GeoFns} {now : ℚ} :
    ∀ (l : List UnifiedRobotState) (a : Alert),
      a ∈ collisionPairs g now l → freshAt now a := by
  intro l
  induction l with
  | nil => intro a ha; simp [collisionPairs] at ha
  | cons r1 rest ih =>
    intro a ha
    rcases List.mem_append.1 ha with h1 | h1
    · refine foldl_pred (freshAt now) _ ?_ rest [] (by simp) a h1
      intro acc x hacc b hb
      rcases List.mem_append.1 hb with h2 | h2
      · exact hacc b h2
      · exact collisionForPair_fresh b h2
    · exact ih a h1

lemma check_collision_courses_fresh {g : GeoFns} {now : ℚ}
    {robots : List UnifiedRobotState} :
    ∀ a ∈ check_collision_courses g now robots, freshAt now a := by
  intro a ha
  exact collisionPairs_fresh _ a ha

lemma check_congestion_fresh {now : ℚ} {robots : List UnifiedRobotState} :
    ∀ a ∈ check_congestion now robots, freshAt now a := by
  intro a ha
  rcases List.mem_map.1 ha with ⟨z, _, he⟩
  rw [← he]
  exact ⟨rfl, rfl⟩

lemma check_battery_critical_fresh {g : GeoFns} {now : ℚ}
    {robots : List UnifiedRobotState} :
    ∀ a ∈ check_battery_critical g now robots, freshAt now a := by
  intro a ha
  unfold check_battery_critical at ha
  refine foldl_pred (freshAt now) _ ?_ robots [] (by simp) a ha
  intro acc r hacc b hb
  by_cases h1 : (r.status == RobotStatus.charging || r.status == RobotStatus.offline) = true
  · rw [if_pos h1] at hb; exact hacc b hb
  · rw [if_neg h1] at hb
    by_cases h2 : decide (25 < r.battery) = true
    · rw [if_pos h2] at hb; exact hacc b hb
    · rw [if_neg h2] at hb
      repeat' split at hb
      all_goals dsimp only at hb
      all_goals repeat' split at hb
      all_goals
        first
          | exact hacc b hb
          | (rcases List.mem_append.1 hb with h3 | h3
             · exact hacc b h3
             · simp at h3
               rw [h3]
               exact ⟨rfl, rfl⟩)

lemma check_path_blocked_fresh {g : GeoFns} {now : ℚ}
    {robots : List UnifiedRobotState} :
    ∀ a ∈ check_path_blocked g now robots, freshAt now a := by
  intro a ha
  unfold check_path_blocked at ha
  refine foldl_pred (freshAt now) _ ?_ _ [] (by simp) a ha
  intro acc r hacc b hb
  by_cases h1 : r.last_error.isNone = true
  · rw [if_pos h1] at hb; exact hacc b hb
  · rw [if_neg h1] at hb
    split at hb
    · exact hacc b hb
    · rcases List.mem_append.1 hb with h3 | h3
      · exact hacc b h3
      · simp at h3
        rw [h3]
        exact ⟨rfl, rfl⟩

lemma runChecks_fresh {g : GeoFns} {now : ℚ} {robots : List UnifiedRobotState} :
    ∀ a ∈ runChecks g now robots, freshAt now a := by
  intro a ha
  unfold runChecks at ha
  rcases List.mem_append.1 ha with h | h
  rcases List.mem_append.1 h with h | h
  rcases List.mem_append.1 h with h | h
  rcases List.mem_append.1 h with h | h
  rcases List.mem_append.1 h with h | h
  · exact check_robot_errors_fresh a h
  · exact check_deadlocks_fresh a h
  · exact check_collision_courses_fresh a h
  · exact check_congestion_fresh a h
  · exact check_battery_critical_fresh a h
  · exact check_path_blocked_fresh a h

/-! ## Origin of tracked entries -/

lemma check_all_entry_origin {g : GeoFns} {t : ℚ}
    {robots : List UnifiedRobotState} {s : EngineState} {p : String × Alert}
    (h : p ∈ ((check_all g t robots s).1).active_alerts) :
    (∃ a0, (p.1, a0) ∈ s.active_alerts ∧ a0.created_at = p.2.created_at) ∨
      (p.2.created_at = t ∧ p.1 ∈ detectedFps g t robots) := by
  have h1 := cleanup_mem h
  rcases auto_resolve_stale_mem h1 with ⟨a1, hmem, heq⟩
  have hcreated : p.2.created_at = a1.created_at := by
    rw [heq]
    exact autoStep_created _ _ _
  rcases admitFold_mem hmem with h2 | h2
  · exact Or.inl ⟨a1, h2, hcreated.symm⟩
  · rcases h2 with ⟨c, hc, he⟩
    have hk : p.1 = fingerprint c := congrArg Prod.fst he
    have ha1 : a1 = c := congrArg Prod.snd he
    have hfc := runChecks_fresh c hc
    refine Or.inr ⟨?_, ?_⟩
    · rw [hcreated, ha1, hfc.1]
    · rw [hk]
      exact List.mem_map.2 ⟨c, hc, rfl⟩

lemma runTrace_origin (g : GeoFns) :
    ∀ (calls : List (ℚ × List UnifiedRobotState)) (s0 : EngineState)
      (p : String × Alert), p ∈ (runTrace g s0 calls).active_alerts →
      (∃ a0, (p.1, a0) ∈ s0.active_alerts ∧ a0.created_at = p.2.created_at) ∨
        ∃ c ∈ calls, p.2.created_at = c.1 ∧ p.1 ∈ detectedFps g c.1 c.2 := by
  intro calls
  induction calls with
  | nil =>
    intro s0 p h
    exact Or.inl ⟨p.2, by simpa using h, rfl⟩
  | cons c cs ih =>
    intro s0 p h
    rcases ih (check_all g c.1 c.2 s0).1 p h with h1 | h1
    · rcases h1 with ⟨a0, hm, he⟩
      rcases check_all_entry_origin (p := (p.1, a0)) hm with h2 | h2
      · rcases h2 with ⟨a1, hm1, he1⟩
        exact Or.inl ⟨a1, hm1, by rw [he1]; exact he⟩
      · refine Or.inr ⟨c, List.mem_cons_self _ _, ?_, h2.2⟩
        rw [← he]
        exact h2.1
    · rcases h1 with ⟨c2, hc2, hp⟩
      exact Or.inr ⟨c2, List.mem_cons_of_mem _ hc2, hp⟩

/-! ## The eviction contract -/

lemma evict_oldest_resolved_case {d : List (String × Alert)}
    (h : ∃ e ∈ d, e.2.resolved = true) :
    ∃ m : String × Alert, m ∈ d ∧ m.2.resolved = true ∧
      (∀ e ∈ d, e.2.resolved = true → m.2.created_at ≤ e.2.created_at) ∧
      evict_oldest d = dictDelete m.1 d := by
  obtain ⟨e0, he0, hr0⟩ := h
  have hne : d.filter (fun p => p.2.resolved) ≠ [] := by
    intro hnil
    have hm : e0 ∈ d.filter (fun p => p.2.resolved) :=
      List.mem_filter.2 ⟨he0, hr0⟩
    rw [hnil] at hm
    simp at hm
  obtain ⟨m, hm⟩ : ∃ m, minByCreated (d.filter (fun p => p.2.resolved)) = some m := by
    cases hmb : minByCreated (d.filter (fun p => p.2.resolved)) with
    | none => exact absurd (minByCreated_eq_none.1 hmb) hne
    | some m => exact ⟨m, rfl⟩
  rcases minByCreated_spec hm with ⟨hmem, hall⟩
  refine ⟨m, (List.mem_filter.1 hmem).1, (List.mem_filter.1 hmem).2, ?_, ?_⟩
  · intro e he her
    exact hall e (List.mem_filter.2 ⟨he, her⟩)
  · unfold evict_oldest
    rw [hm]

lemma evict_oldest_noncritical_case {d : List (String × Alert)}
    (hres : ∀ e ∈ d, e.2.resolved = false)
    (h : ∃ e ∈ d, ¬e.2.severity = AlertSeverity.critical) :
    ∃ m : String × Alert, m ∈ d ∧ ¬m.2.severity = AlertSeverity.critical ∧
      (∀ e ∈ d, ¬e.2.severity = AlertSeverity.critical →
        m.2.created_at ≤ e.2.created_at) ∧
      evict_oldest d = dictDelete m.1 d := by
  have hrnil : d.filter (fun p => p.2.resolved) = [] := by
    rw [List.filter_eq_nil_iff]
    intro p hp
    simp [hres p hp]
  obtain ⟨e0, he0, hs0⟩ := h
  have hne : d.filter (fun p => !(p.2.severity = AlertSeverity.critical)) ≠ [] := by
    intro hnil
    have hm : e0 ∈ d.filter (fun p => !(p.2.severity = AlertSeverity.critical)) :=
      List.mem_filter.2 ⟨he0, by simpa using hs0⟩
    rw [hnil] at hm
    simp at hm
  obtain ⟨m, hm⟩ : ∃ m,
      minByCreated (d.filter (fun p => !(p.2.severity = AlertSeverity.critical))) =
        some m := by
    cases hmb : minByCreated
        (d.filter (fun p => !(p.2.severity = AlertSeverity.critical))) with
    | none => exact absurd (minByCreated_eq_none.1 hmb) hne
    | some m => exact ⟨m, rfl⟩
  rcases minByCreated_spec hm with ⟨hmem, hall⟩
  refine ⟨m, (List.mem_filter.1 hmem).1, by simpa using (List.mem_filter.1 hmem).2,
    ?_, ?_⟩
  · intro e he hes
    exact hall e (List.mem_filter.2 ⟨he, by simpa using hes⟩)
  · unfold evict_oldest
    rw [hrnil]
    show (match minByCreated [] with
      | some m => dictDelete m.1 d
      | none =>
        match minByCreated
            (d.filter (fun p => !(p.2.severity = AlertSeverity.critical))) with
        | some m => dictDelete m.1 d
        | none => d) = dictDelete m.1 d
    rw [show minByCreated ([] : List (String × Alert)) = none from rfl, hm]

lemma evict_oldest_id {d : List (String × Alert)}
    (hres : ∀ e ∈ d, e.2.resolved = false)
    (hcrit : ∀ e ∈ d, e.2.severity = AlertSeverity.critical) :
    evict_oldest d = d := by
  have hrnil : d.filter (fun p => p.2.resolved) = [] := by
    rw [List.filter_eq_nil_iff]
    intro p hp
    simp [hres p hp]
  have hcnil : d.filter (fun p => !(p.2.severity = AlertSeverity.critical)) = [] := by
    rw [List.filter_eq_nil_iff]
    intro p hp
    simp [hcrit p hp]
  unfold evict_oldest
  rw [hrnil, hcnil]
  rfl

lemma admitOne_at_cap {now : ℚ} {s : EngineState} {a : Alert}
    (hfp : s.active_alerts.lookup (fingerprint a) = none)
    (hcd : is_on_cooldown s now (fingerprint a) = false)
    (hcap : MAX_ACTIVE_ALERTS ≤ unresolvedCount s.active_alerts) :
    (admitOne now s a).active_alerts =
      evict_oldest s.active_alerts ++ [(fingerprint a, a)] := by
  unfold admitOne
  rw [if_neg (by rw [hfp]; simp), if_neg (by rw [hcd]; simp), if_pos hcap]
  exact dictInsert_of_lookup_none (evict_oldest_lookup_none hfp)

/-! ## Resolving twice -/

lemma resolveInList_twice (t1 t2 : ℚ) (id : String) :
    ∀ l : List (String × Alert), (resolveInList t1 id l).2 = true →
      (resolveInList t2 id (resolveInList t1 id l).1).2 = true ∧
      (resolveInList t2 id (resolveInList t1 id l).1).1 =
        (resolveInList t2 id l).1 := by
  intro l
  induction l with
  | nil => intro h; simp [resolveInList] at h
  | cons p rest ih =>
    obtain ⟨fp, a⟩ := p
    intro h
    by_cases hid : a.id = id
    · constructor
      · simp [resolveInList, hid]
      · simp [resolveInList, hid]
    · have h2 : (resolveInList t1 id rest).2 = true := by
        simpa [resolveInList, hid] using h
      rcases ih h2 with ⟨ihl, ihr⟩
      constructor
      · simpa [resolveInList, hid] using ihl
      · simp only [resolveInList, if_neg hid]
        simpa [resolveInList, hid] using ihr

/-! ## Claims about the conflict engine -/

/-- The tracked alert created by the first call of the one-robot traces. -/
def h1alert : Alert :=
  { id := ""
    alert_type := AlertType.error
    severity := AlertSeverity.critical
    affected_robots := ["H-001"]
    position := some ⟨1, 1⟩
    acknowledged := false
    resolved := false
    created_at := 0
    acknowledged_at := none
    resolved_at := none }

/-- C1 (counterexample): a single check_all call on a snapshot with nine
robots in ERROR state leaves nine unresolved tracked alerts, above the cap
of 8: with eight unresolved criticals tracked, the ninth candidate finds no
eviction candidate and is still admitted. -/
theorem C1_cap_counterexample :
    MAX_ACTIVE_ALERTS <
      unresolvedCount (runTrace geo0 engine0 [(0, nineErrSnaps)]).active_alerts := by
  decide

/-- C1 (amended): the number of tracked unresolved alerts can exceed
MAX_ACTIVE_ALERTS after a check_all call; the cap that does hold after any
number of check_all calls is on the visible list: get_active_alerts returns
at most MAX_ACTIVE_ALERTS alerts. -/
theorem C1_visible_cap (g : GeoFns) (calls : List (ℚ × List UnifiedRobotState)) :
    (get_active_alerts (runTrace g engine0 calls)).length ≤ MAX_ACTIVE_ALERTS := by
  unfold get_active_alerts
  exact List.length_take_le _ _

/-- C2 (counterexample): with eight unresolved critical alerts tracked, a
candidate that passes the fingerprint and cooldown checks is not silently
dropped: it is admitted and the unresolved count reaches nine. -/
theorem C2_drop_counterexample :
    (fullCritical.active_alerts.lookup (fingerprint candR9) = none) ∧
    (is_on_cooldown fullCritical 8 (fingerprint candR9) = false) ∧
    (MAX_ACTIVE_ALERTS ≤ unresolvedCount fullCritical.active_alerts) ∧
    ((fingerprint candR9, candR9) ∈ (admitOne 8 fullCritical candR9).active_alerts) ∧
    (unresolvedCount (admitOne 8 fullCritical candR9).active_alerts = 9) :=
  ⟨by decide, by decide, by decide, by decide, by decide⟩

/-- C2 (amended): when a candidate passes the fingerprint and cooldown
checks at or above the cap, the engine evicts the oldest already-resolved
tracked alert if one exists, else the oldest non-critical one; and when no
eviction candidate exists nothing is evicted and the candidate is still
admitted (overshooting the cap), never dropped. -/
theorem C2_eviction_contract (now : ℚ) (a : Alert) (s : EngineState)
    (hfp : s.active_alerts.lookup (fingerprint a) = none)
    (hcd : is_on_cooldown s now (fingerprint a) = false)
    (hcap : MAX_ACTIVE_ALERTS ≤ unresolvedCount s.active_alerts) :
    ((fingerprint a, a) ∈ (admitOne now s a).active_alerts) ∧
    ((∃ e ∈ s.active_alerts, e.2.resolved = true) →
      ∃ m : String × Alert, m ∈ s.active_alerts ∧ m.2.resolved = true ∧
        (∀ e ∈ s.active_alerts, e.2.resolved = true →
          m.2.created_at ≤ e.2.created_at) ∧
        (admitOne now s a).active_alerts =
          dictDelete m.1 s.active_alerts ++ [(fingerprint a, a)]) ∧
    ((∀ e ∈ s.active_alerts, e.2.resolved = false) →
      (∃ e ∈ s.active_alerts, ¬e.2.severity = AlertSeverity.critical) →
      ∃ m : String × Alert, m ∈ s.active_alerts ∧
        ¬m.2.severity = AlertSeverity.critical ∧
        (∀ e ∈ s.active_alerts, ¬e.2.severity = AlertSeverity.critical →
          m.2.created_at ≤ e.2.created_at) ∧
        (admitOne now s a).active_alerts =
          dictDelete m.1 s.active_alerts ++ [(fingerprint a, a)]) ∧
    ((∀ e ∈ s.active_alerts, e.2.resolved = false ∧
        e.2.severity = AlertSeverity.critical) →
      (admitOne now s a).active_alerts = s.active_alerts ++ [(fingerprint a, a)]) := by
  have hform := admitOne_at_cap hfp hcd hcap
  refine ⟨?_, ?_, ?_, ?_⟩
  · rw [hform]
    exact List.mem_append_right _ (List.mem_singleton_self _)
  · intro h
    rcases evict_oldest_resolved_case h with ⟨m, hm, hr, hmin, hev⟩
    exact ⟨m, hm, hr, hmin, by rw [hform, hev]⟩
  · intro hres h
    rcases evict_oldest_noncritical_case hres h with ⟨m, hm, hs, hmin, hev⟩
    exact ⟨m, hm, hs, hmin, by rw [hform, hev]⟩
  · intro h
    rw [hform, evict_oldest_id (fun e he => (h e he).1) (fun e he => (h e he).2)]

/-- C2 witness: the eviction contract applied to the full-critical engine
state and a fresh candidate (the no-candidate case). -/
theorem C2_eviction_contract_witness :
    (fullCritical.active_alerts.lookup (fingerprint candR9) = none) ∧
    (is_on_cooldown fullCritical 8 (fingerprint candR9) = false) ∧
    (MAX_ACTIVE_ALERTS ≤ unresolvedCount fullCritical.active_alerts) ∧
    ((admitOne 8 fullCritical candR9).active_alerts =
      fullCritical.active_alerts ++ [(fingerprint candR9, candR9)]) :=
  ⟨by decide, by decide, by decide,
    (C2_eviction_contract 8 candR9 fullCritical (by decide) (by decide)
        (by decide)).2.2.2 (by decide)⟩

/-- C3 (counterexample): a second check_all over the unchanged one-robot
snapshot returns a candidate (created at time 1) although nothing was
admitted during that call: the engine state is unchanged and the only
tracked alert still carries creation time 0. -/
theorem C3_returned_counterexample :
    ((check_all geo0 1 oneErrSnap (check_all geo0 0 oneErrSnap engine0).1).2.map
        (fun a => a.created_at) = [1]) ∧
    ((check_all geo0 1 oneErrSnap (check_all geo0 0 oneErrSnap engine0).1).1 =
      (check_all geo0 0 oneErrSnap engine0).1) ∧
    (((check_all geo0 0 oneErrSnap engine0).1).active_alerts.map
        (fun p => p.2.created_at) = [0]) :=
  ⟨by decide, by decide, by decide⟩

/-- C3 (amended): check_all returns exactly the full candidate list produced
by the six detection passes this cycle, including candidates suppressed by
fingerprint deduplication, cooldown or the cap; every freshly admitted
tracked alert does appear in the returned list (any tracked entry after the
call is either an update of a previously tracked fingerprint or one of the
returned candidates). -/
theorem C3_returned_alerts (g : GeoFns) (now : ℚ)
    (robots : List UnifiedRobotState) (s : EngineState) :
    (check_all g now robots s).2 = runChecks g now robots ∧
    ∀ p ∈ ((check_all g now robots s).1).active_alerts,
      (∃ a0, (p.1, a0) ∈ s.active_alerts) ∨ p.2 ∈ (check_all g now robots s).2 := by
  refine ⟨rfl, ?_⟩
  intro p hp
  replace hp : p ∈ (cleanup_old_alerts now
      (auto_resolve_stale now (detectedFps g now robots)
        (admitNew g now robots s))).active_alerts := hp
  have h1 := cleanup_mem hp
  rcases auto_resolve_stale_mem h1 with ⟨a1, hmem, heq⟩
  rcases admitFold_mem (l := runChecks g now robots) hmem with h2 | h2
  · exact Or.inl ⟨a1, h2⟩
  · rcases h2 with ⟨c, hc, he⟩
    have hk : p.1 = fingerprint c := congrArg Prod.fst he
    have ha1 : a1 = c := congrArg Prod.snd he
    have hcur : p.1 ∈ detectedFps g now robots := by
      rw [hk]
      exact List.mem_map.2 ⟨c, hc, rfl⟩
    have hpe : p = (p.1, a1) := by
      rw [autoStep_of_mem_cur (p := (p.1, a1)) hcur] at heq
      exact heq
    right
    have : p.2 = c := by rw [hpe, ha1]
    rw [this]
    exact hc

/-- C3 witness: the suppressed-candidate call, with the tracked entry coming
from the previously tracked fingerprint. -/
theorem C3_returned_alerts_witness :
    (("error:H-001", h1alert) ∈
      ((check_all geo0 1 oneErrSnap
        (check_all geo0 0 oneErrSnap engine0).1).1).active_alerts) ∧
    ((∃ a0, ("error:H-001", a0) ∈
        ((check_all geo0 0 oneErrSnap engine0).1).active_alerts) ∨
      h1alert ∈ (check_all geo0 1 oneErrSnap
        (check_all geo0 0 oneErrSnap engine0).1).2) :=
  ⟨by decide,
    (C3_returned_alerts geo0 1 oneErrSnap
        (check_all geo0 0 oneErrSnap engine0).1).2
      ("error:H-001", h1alert) (by decide)⟩

/-- C4: over any trace of check_all calls from the fresh engine, a tracked
unresolved alert whose fingerprint was absent from every call of the last
STALE_SECONDS (including the current one) is resolved by the current call;
and a tracked unresolved alert whose fingerprint is re-detected in the
current cycle is not auto-resolved (every entry of its fingerprint stays
unresolved). -/
theorem C4_auto_resolution (g : GeoFns)
    (calls : List (ℚ × List UnifiedRobotState)) (t : ℚ)
    (robots : List UnifiedRobotState) (fp : String) (a : Alert) :
    ((fp, a) ∈ (runTrace g engine0 calls).active_alerts → a.resolved = false →
      (∀ c ∈ (t, robots) :: calls, t - STALE_SECONDS ≤ c.1 →
        fp ∉ detectedFps g c.1 c.2) →
      ∀ a2, (fp, a2) ∈
          ((check_all g t robots (runTrace g engine0 calls)).1).active_alerts →
        a2.resolved = true) ∧
    ((fp, a) ∈ (runTrace g engine0 calls).active_alerts → a.resolved = false →
      (∀ p ∈ (runTrace g engine0 calls).active_alerts, p.1 = fp →
        p.2.resolved = false) →
      fp ∈ detectedFps g t robots →
      ∀ a2, (fp, a2) ∈
          ((check_all g t robots (runTrace g engine0 calls)).1).active_alerts →
        a2.resolved = false) := by
  constructor
  · intro _ _ habsent a2 h2
    have hfinal : fp ∉ detectedFps g t robots :=
      habsent (t, robots) (List.mem_cons_self _ _)
        (sub_le_self t (by norm_num [STALE_SECONDS]))
    replace h2 : (fp, a2) ∈ (cleanup_old_alerts t
        (auto_resolve_stale t (detectedFps g t robots)
          (admitNew g t robots (runTrace g engine0 calls)))).active_alerts := h2
    have h1 := cleanup_mem h2
    rcases auto_resolve_stale_mem h1 with ⟨a1, hmem, heq⟩
    rcases admitFold_mem (l := runChecks g t robots) hmem with h3 | h3
    · rcases runTrace_origin g calls engine0 (fp, a1) h3 with h4 | h4
      · rcases h4 with ⟨a0, hm0, _⟩
        simp [engine0] at hm0
      · rcases h4 with ⟨c, hc, hcr, hdet⟩
        have hlt : ¬(t - STALE_SECONDS ≤ c.1) := fun hle =>
          habsent c (List.mem_cons_of_mem _ hc) hle hdet
        have hage : STALE_SECONDS < t - a1.created_at := by
          have := not_le.1 hlt
          have hcr2 : a1.created_at = c.1 := hcr
          rw [hcr2]
          linarith
        have ha2 : a2 = (autoStep t (detectedFps g t robots) (fp, a1)).2 :=
          congrArg Prod.snd heq
        rw [ha2]
        by_cases hres1 : a1.resolved = true
        · rw [autoStep_of_resolved hres1]
          exact hres1
        · exact autoStep_resolves hfinal hage
    · rcases h3 with ⟨c, hc, he⟩
      have hk : fp = fingerprint c := congrArg Prod.fst he
      exact absurd (by rw [hk]; exact List.mem_map.2 ⟨c, hc, rfl⟩) hfinal
  · intro _ _ hall hdet a2 h2
    replace h2 : (fp, a2) ∈ (cleanup_old_alerts t
        (auto_resolve_stale t (detectedFps g t robots)
          (admitNew g t robots (runTrace g engine0 calls)))).active_alerts := h2
    have h1 := cleanup_mem h2
    rcases auto_resolve_stale_mem h1 with ⟨a1, hmem, heq⟩
    have ha1res : a1.resolved = false := by
      rcases admitFold_mem (l := runChecks g t robots) hmem with h3 | h3
      · exact hall (fp, a1) h3 rfl
      · rcases h3 with ⟨c, hc, he⟩
        have ha1 : a1 = c := congrArg Prod.snd he
        rw [ha1]
        exact (runChecks_fresh c hc).2
    have ha2 : a2 = (autoStep t (detectedFps g t robots) (fp, a1)).2 :=
      congrArg Prod.snd heq
    rw [ha2, autoStep_of_mem_cur hdet]
    exact ha1res

/-- C4 witness: a one-robot alert created at time 0, resolved by the call at
time 100 after the condition vanished, and left unresolved by a call at
time 1 that re-detects it. -/
theorem C4_auto_resolution_witness :
    (("error:H-001", h1alert) ∈
      (runTrace geo0 engine0 [(0, oneErrSnap)]).active_alerts) ∧
    (∀ a2, ("error:H-001", a2) ∈
        ((check_all geo0 100 []
          (runTrace geo0 engine0 [(0, oneErrSnap)])).1).active_alerts →
      a2.resolved = true) ∧
    (∀ a2, ("error:H-001", a2) ∈
        ((check_all geo0 1 oneErrSnap
          (runTrace geo0 engine0 [(0, oneErrSnap)])).1).active_alerts →
      a2.resolved = false) :=
  ⟨by decide,
    (C4_auto_resolution geo0 [(0, oneErrSnap)] 100 [] "error:H-001" h1alert).1
      (by decide) (by decide) (by decide),
    (C4_auto_resolution geo0 [(0, oneErrSnap)] 1 oneErrSnap "error:H-001" h1alert).2
      (by decide) (by decide) (by decide) (by decide)⟩

/-- C5 (counterexample): resolving the same alert id at time 0 and again at
time 5 returns True both times, but the second call changes the alert:
resolved_at is overwritten from 0 to 5. -/
theorem C5_resolve_counterexample :
    ((resolve_alert 5 "A1" (resolve_alert 0 "A1" oneAlertState).1).2 = true) ∧
    ((resolve_alert 0 "A1" oneAlertState).1.active_alerts.map
        (fun p => p.2.resolved_at) = [some 0]) ∧
    ((resolve_alert 5 "A1" (resolve_alert 0 "A1" oneAlertState).1).1.active_alerts.map
        (fun p => p.2.resolved_at) = [some 5]) :=
  ⟨by decide, by decide, by decide⟩

/-- C5 (amended): resolve_alert called twice on the same id returns True
then True and never raises (it is a total function); the second call leaves
resolved and severity unchanged but overwrites resolved_at with its own
timestamp, so resolving at t1 and then at t2 yields exactly the tracked
state of resolving once at t2. -/
theorem C5_resolve_idempotent (s : EngineState) (id : String) (t1 t2 : ℚ)
    (h : (resolve_alert t1 id s).2 = true) :
    (resolve_alert t2 id (resolve_alert t1 id s).1).2 = true ∧
    (resolve_alert t2 id (resolve_alert t1 id s).1).1 =
      (resolve_alert t2 id s).1 := by
  have h0 : (resolveInList t1 id s.active_alerts).2 = true := h
  rcases resolveInList_twice t1 t2 id s.active_alerts h0 with ⟨h1, h2⟩
  refine ⟨h1, ?_⟩
  show EngineState.mk
      ((resolveInList t2 id (resolveInList t1 id s.active_alerts).1).1)
      s.alert_cooldowns =
    EngineState.mk ((resolveInList t2 id s.active_alerts).1) s.alert_cooldowns
  rw [h2]

/-- C5 witness: the two-call scenario on the one-alert engine state. -/
theorem C5_resolve_idempotent_witness :
    ((resolve_alert 0 "A1" oneAlertState).2 = true) ∧
    ((resolve_alert 5 "A1" (resolve_alert 0 "A1" oneAlertState).1).2 = true ∧
      (resolve_alert 5 "A1" (resolve_alert 0 "A1" oneAlertState).1).1 =
        (resolve_alert 5 "A1" oneAlertState).1) :=
  ⟨by decide, C5_resolve_idempotent oneAlertState "A1" 0 5 (by decide)⟩

/-- C6 (counterexample): the spec scenario (battery 8, drain 1.0 percent per
minute, no task, nearest charger 60 units away) produces no alert at all:
the battery needed is 60 / 60 * 1.0 + 5 = 6 percent, not more than 8. -/
theorem C6_battery_counterexample :
    (check_battery_critical geoC6 0 [c6robot]).length = 0 := by
  decide

/-- C6 (amended): with battery 8, drain 1.0 percent per minute and no task,
the battery-critical pass emits nothing when the nearest charger is 60 units
away (8 covers the 6 percent needed); moving the charger to 240 units
(needing 240 / 60 * 1.0 + 5 = 9 percent) makes it emit exactly one alert,
of severity critical because battery 8 is below 10. -/
theorem C6_battery_scenario :
    check_battery_critical geoC6 0 [c6robot] = [] ∧
    (check_battery_critical geoC6 0 [c6robotFar]).map
        (fun a => (a.alert_type, a.severity, a.affected_robots)) =
      [(AlertType.battery_critical, AlertSeverity.critical, ["AMR-X"])] :=
  ⟨by decide, by decide⟩

/-- C10: every position whose x coordinate lies strictly between 13 and 14
(the gap between Zone A and Zone B) is mapped to the zone string Unknown,
and eight non-offline robots whose snapshots carry that computed zone
trigger exactly one congestion warning for the zone Unknown naming all
eight. -/
theorem C10_zone_gap :
    (∀ x y : ℚ, 13 < x → x < 14 → get_zone_for_position x y = "Unknown") ∧
    (check_congestion 0 gapRobots).map
        (fun a => (a.alert_type, a.severity, a.affected_robots)) =
      [(AlertType.congestion, AlertSeverity.warning,
        ["U-001", "U-002", "U-003", "U-004", "U-005", "U-006", "U-007", "U-008"])] := by
  constructor
  · intro x y hx1 hx2
    unfold get_zone_for_position
    have hnone : ZONES.find? (fun z =>
        decide (z.2.x_min ≤ x ∧ x ≤ z.2.x_max ∧ z.2.y_min ≤ y ∧ y ≤ z.2.y_max)) =
          none := by
      rw [List.find?_eq_none]
      intro z hz
      simp only [ZONES, List.mem_cons, List.not_mem_nil, or_false] at hz
      rcases hz with rfl | rfl | rfl | rfl | rfl | rfl
      · show ¬(decide ((0 : ℚ) ≤ x ∧ x ≤ 13 ∧ (0 : ℚ) ≤ y ∧ y ≤ 14) = true)
        simp only [decide_eq_true_eq]
        rintro ⟨-, h2, -, -⟩
        linarith
      · show ¬(decide ((14 : ℚ) ≤ x ∧ x ≤ 26 ∧ (0 : ℚ) ≤ y ∧ y ≤ 14) = true)
        simp only [decide_eq_true_eq]
        rintro ⟨h1, -⟩
        linarith
      · show ¬(decide ((27 : ℚ) ≤ x ∧ x ≤ 39 ∧ (0 : ℚ) ≤ y ∧ y ≤ 14) = true)
        simp only [decide_eq_true_eq]
        rintro ⟨h1, -⟩
        linarith
      · show ¬(decide ((0 : ℚ) ≤ x ∧ x ≤ 13 ∧ (15 : ℚ) ≤ y ∧ y ≤ 29) = true)
        simp only [decide_eq_true_eq]
        rintro ⟨-, h2, -, -⟩
        linarith
      · show ¬(decide ((14 : ℚ) ≤ x ∧ x ≤ 26 ∧ (15 : ℚ) ≤ y ∧ y ≤ 29) = true)
        simp only [decide_eq_true_eq]
        rintro ⟨h1, -⟩
        linarith
      · show ¬(decide ((27 : ℚ) ≤ x ∧ x ≤ 39 ∧ (15 : ℚ) ≤ y ∧ y ≤ 29) = true)
        simp only [decide_eq_true_eq]
        rintro ⟨h1, -⟩
        linarith
    rw [hnone]
  · decide

/-- C10 witness: the universal part instantiated at x = 13.5. -/
theorem C10_zone_gap_witness :
    (13 < (27 / 2 : ℚ)) ∧ ((27 / 2 : ℚ) < 14) ∧
      get_zone_for_position (27 / 2) 5 = "Unknown" :=
  ⟨by norm_num, by norm_num, C10_zone_gap.1 (27 / 2) 5 (by norm_num) (by norm_num)⟩

/-! ## Simulator invariant lemmas -/

/-- Battery within bounds. -/
def BatOK (r : RawRobot) : Prop := 0 ≤ r.battery ∧ r.battery ≤ 100

/-- A charging robot holds no task. -/
def ChgOK (r : RawRobot) : Prop :=
  r.status = RobotStatus.charging → r.task = none

lemma get_drain_rate_nonneg (r : RawRobot) : 0 ≤ get_drain_rate r := by
  unfold get_drain_rate
  split
  · next d heq =>
    simp only [List.lookup] at heq
    repeat' split at heq
    all_goals cases heq
    all_goals norm_num
  · norm_num

lemma BatOK_of_battery_eq {r1 r2 : RawRobot} (h : r2.battery = r1.battery)
    (hb : BatOK r1) : BatOK r2 := by
  unfold BatOK
  rw [h]
  exact hb

lemma charge_step_bat {r : RawRobot} (h : BatOK r) : BatOK (charge_step r) := by
  obtain ⟨h0, h1⟩ := h
  constructor
  · exact le_min (by norm_num) (by norm_num [charge_rate]; linarith)
  · exact min_le_left _ _

lemma drain_step_bat {r : RawRobot} (h : BatOK r) : BatOK (drain_step r) := by
  obtain ⟨h0, h1⟩ := h
  have hd := get_drain_rate_nonneg r
  unfold drain_step
  split
  · have hdd : (0 : ℚ) ≤
        (if r.status = RobotStatus.idle then get_drain_rate r * (3 / 10)
         else get_drain_rate r) := by
      split
      · exact mul_nonneg hd (by norm_num)
      · exact hd
    exact ⟨le_max_left _ _, max_le (by norm_num) (by linarith)⟩
  · exact ⟨h0, h1⟩

lemma auto_charge_battery (g : GeoFns) (now : ℚ) (c : Nat) (r : RawRobot) :
    (auto_charge g now c r).1.battery = r.battery := by
  unfold auto_charge
  repeat' split
  all_goals rfl

lemma handle_battery_bat {g : GeoFns} {now : ℚ} {c : Nat} {r : RawRobot}
    (h : BatOK r) : BatOK (handle_battery g now c r).1 := by
  unfold handle_battery
  split
  · split
    · exact charge_step_bat h
    · exact charge_step_bat h
  · exact BatOK_of_battery_eq (auto_charge_battery g now c (drain_step r))
      (drain_step_bat h)

lemma complete_task_battery (now : ℚ) (r : RawRobot) :
    (complete_task now r).battery = r.battery := by
  unfold complete_task
  split <;> rfl

lemma complete_task_status (now : ℚ) (r : RawRobot) :
    (complete_task now r).status = RobotStatus.idle := by
  unfold complete_task
  split <;> rfl

lemma move_robot_battery (g : GeoFns) (j now : ℚ) (r : RawRobot) :
    (move_robot g j now r).battery = r.battery := by
  simp only [move_robot]
  repeat' split
  all_goals first | rfl | exact complete_task_battery now r

lemma assign_task_battery (a : AssignRand) (now : ℚ) (c : Nat) (r : RawRobot) :
    (assign_task a now c r).1.battery = r.battery := rfl

lemma assign_task_status (a : AssignRand) (now : ℚ) (c : Nat) (r : RawRobot) :
    (assign_task a now c r).1.status = RobotStatus.active := rfl

lemma maybe_generate_error_battery (e : ErrRand) (now : ℚ) (r : RawRobot) :
    (maybe_generate_error e now r).battery = r.battery := by
  unfold maybe_generate_error
  repeat' split
  all_goals rfl

lemma maybe_resolve_error_battery (d now : ℚ) (r : RawRobot) :
    (maybe_resolve_error d now r).battery = r.battery := by
  unfold maybe_resolve_error
  repeat' split
  all_goals rfl

lemma tickMoveStage_bat {g : GeoFns} {j now : ℚ} {r : RawRobot}
    (h : BatOK r) : BatOK (tickMoveStage g j now r) := by
  unfold tickMoveStage
  split
  · exact BatOK_of_battery_eq (move_robot_battery g j now r) h
  · exact h

lemma tickAssignStage_bat {a : AssignRand} {roll : Bool} {now : ℚ} {c : Nat}
    {r : RawRobot} (h : BatOK r) : BatOK (tickAssignStage a roll now c r).1 := by
  unfold tickAssignStage
  split
  · exact BatOK_of_battery_eq (assign_task_battery a now c r) h
  · exact h

lemma robotTick_bat {g : GeoFns} {rnd : TickRand} {now : ℚ} {c : Nat}
    {r : RawRobot} (h : BatOK r) : BatOK (robotTick g rnd now c r).1 := by
  unfold robotTick
  split
  · exact BatOK_of_battery_eq (maybe_resolve_error_battery rnd.dwell now r) h
  · split
    · exact h
    · split
      · exact handle_battery_bat h
      · exact BatOK_of_battery_eq
          (maybe_generate_error_battery rnd.err now _)
          (tickAssignStage_bat (tickMoveStage_bat (handle_battery_bat h)))

lemma move_robot_chg {g : GeoFns} {j now : ℚ} {r : RawRobot} (h : ChgOK r) :
    ChgOK (move_robot g j now r) := by
  simp only [move_robot]
  cases hd : r.task_destination with
  | none => exact h
  | some dest =>
    dsimp only
    by_cases hs : r.status ≠ RobotStatus.active
    · rw [if_pos hs]
      exact h
    · rw [if_neg hs]
      split
      · intro hc
        rw [complete_task_status] at hc
        exact absurd hc (by decide)
      · intro hc
        have h2 : r.status = RobotStatus.charging := hc
        have h3 : r.status = RobotStatus.active := not_not.1 hs
        rw [h3] at h2
        exact absurd h2 (by decide)

lemma handle_battery_chg {g : GeoFns} {now : ℚ} {c : Nat} {r : RawRobot}
    (h : ChgOK r) : ChgOK (handle_battery g now c r).1 := by
  unfold handle_battery
  by_cases hs : r.status = RobotStatus.charging
  · rw [if_pos hs]
    split
    · intro hc
      exact absurd (show RobotStatus.idle = RobotStatus.charging from hc) (by decide)
    · intro _
      show r.task = none
      exact h hs
  · rw [if_neg hs]
    have hd : ChgOK (drain_step r) := by
      unfold drain_step
      split
      · intro hc
        exact absurd hc hs
      · exact h
    unfold auto_charge
    split
    · split
      · intro _
        rfl
      · intro hc
        exact absurd (show RobotStatus.active = RobotStatus.charging from hc) (by decide)
    · exact hd

lemma maybe_generate_error_chg {e : ErrRand} {now : ℚ} {r : RawRobot}
    (h : ChgOK r) : ChgOK (maybe_generate_error e now r) := by
  unfold maybe_generate_error
  repeat' split
  · exact h
  · exact h
  · intro hc
    exact absurd (show RobotStatus.error = RobotStatus.charging from hc) (by decide)

lemma maybe_resolve_error_chg {d now : ℚ} {r : RawRobot} (h : ChgOK r) :
    ChgOK (maybe_resolve_error d now r) := by
  unfold maybe_resolve_error
  by_cases hs : r.status ≠ RobotStatus.error
  · rw [if_pos hs]
    exact h
  · rw [if_neg hs]
    cases he : r.error_start with
    | none => exact h
    | some t0 =>
      dsimp only
      by_cases ht : d < now - t0
      · rw [if_pos ht]
        intro hc
        exact absurd (show RobotStatus.idle = RobotStatus.charging from hc) (by decide)
      · rw [if_neg ht]
        intro hc
        have h2 : r.status = RobotStatus.charging := hc
        have h3 : r.status = RobotStatus.error := not_not.1 hs
        rw [h3] at h2
        exact absurd h2 (by decide)

lemma robotTick_chg {g : GeoFns} {rnd : TickRand} {now : ℚ} {c : Nat}
    {r : RawRobot} (h : ChgOK r) : ChgOK (robotTick g rnd now c r).1 := by
  unfold robotTick
  split
  · exact maybe_resolve_error_chg h
  · split
    · exact h
    · split
      · exact handle_battery_chg h
      · apply maybe_generate_error_chg
        unfold tickAssignStage
        split
        · intro hc
          rw [assign_task_status] at hc
          exact absurd hc (by decide)
        · unfold tickMoveStage
          split
          · exact move_robot_chg (handle_battery_chg h)
          · exact handle_battery_chg h

/-! ## Fleet-level closure lemmas -/

lemma tickFold_pred (g : GeoFns) (rnd : String → TickRand) (now : ℚ)
    (P : String × RawRobot → Prop)
    (hP : ∀ (q : String × RawRobot) (c : Nat), P q →
      P (q.1, (robotTick g (rnd q.1) now c q.2).1)) :
    ∀ (l : List (String × RawRobot)) (acc : List (String × RawRobot) × Nat),
      (∀ p ∈ acc.1, P p) → (∀ p ∈ l, P p) →
      ∀ p ∈ (l.foldl
        (fun (acc : List (String × RawRobot) × Nat) p =>
          ( acc.1 ++ [(p.1, (robotTick g (rnd p.1) now acc.2 p.2).1)]
          , (robotTick g (rnd p.1) now acc.2 p.2).2 )) acc).1, P p := by
  intro l
  induction l with
  | nil => intro acc hacc _ p hp; exact hacc p hp
  | cons q qs ih =>
    intro acc hacc hl p hp
    refine ih _ ?_ (fun x hx => hl x (List.mem_cons_of_mem _ hx)) p hp
    intro x hx
    rcases List.mem_append.1 hx with h1 | h1
    · exact hacc x h1
    · have hxe : x = (q.1, (robotTick g (rnd q.1) now acc.2 q.2).1) := by
        simpa using h1
      rw [hxe]
      exact hP q acc.2 (hl q (List.mem_cons_self _ _))

lemma tick_pred {g : GeoFns} {rnd : String → TickRand} {now : ℚ} {s : SimState}
    (P : String × RawRobot → Prop)
    (hP : ∀ (q : String × RawRobot) (c : Nat), P q →
      P (q.1, (robotTick g (rnd q.1) now c q.2).1))
    (hall : ∀ p ∈ s.robots, P p) :
    ∀ p ∈ (tick g rnd now s).robots, P p := by
  intro p hp
  exact tickFold_pred g rnd now P hP s.robots ([], s.task_counter)
    (by simp) hall p hp

lemma initFold_pred (rnd : InitRand) (now : ℚ) (P : String × RawRobot → Prop)
    (hP : ∀ (i : String) (r : RawRobot) (c : Nat), P (i, r) →
      P (i, (assign_task (rnd.assign i) now c r).1)) :
    ∀ (l : List String) (acc : List (String × RawRobot) × Nat),
      (∀ p ∈ acc.1, P p) → ∀ p ∈ (l.foldl (initAssignStep rnd now) acc).1, P p := by
  intro l
  induction l with
  | nil => intro acc hacc p hp; exact hacc p hp
  | cons i is ih =>
    intro acc hacc p hp
    refine ih (initAssignStep rnd now acc i) ?_ p hp
    intro x hx
    unfold initAssignStep at hx
    split at hx
    · next r heq =>
      rcases dictInsert_mem hx with h1 | h1
      · exact hacc x h1
      · rw [h1]
        exact hP i r acc.2 (hacc (i, r) (lookup_mem heq))
    · exact hacc x hx

lemma initBase_mem {rnd : InitRand} {p : String × RawRobot}
    (hp : p ∈ initBase rnd) :
    (∃ i, p.2.battery = rnd.battery i) ∧ p.2.status = RobotStatus.idle := by
  unfold initBase initBlock at hp
  rcases List.mem_append.1 hp with h | h
  · rcases List.mem_append.1 h with h1 | h1 <;>
    · rcases List.mem_map.1 h1 with ⟨e, _, hpe⟩
      rw [← hpe]
      exact ⟨⟨_, rfl⟩, rfl⟩
  · rcases List.mem_map.1 h with ⟨e, _, hpe⟩
    rw [← hpe]
    exact ⟨⟨_, rfl⟩, rfl⟩

lemma init_fleet_facts (rnd : InitRand) (now : ℚ) :
    ∀ p ∈ (init_fleet rnd now).robots,
      (∃ i, p.2.battery = rnd.battery i) ∧ p.2.status ≠ RobotStatus.charging := by
  intro p hp
  refine initFold_pred rnd now
    (fun q => (∃ i, q.2.battery = rnd.battery i) ∧ q.2.status ≠ RobotStatus.charging)
    ?_ rnd.sample (initBase rnd, 0) ?_ p hp
  · intro i r c hq
    refine ⟨?_, ?_⟩
    · rcases hq.1 with ⟨i0, hb⟩
      exact ⟨i0, by rw [assign_task_battery]; exact hb⟩
    · rw [assign_task_status]
      decide
  · intro x hx
    rcases initBase_mem hx with ⟨hb, hs⟩
    refine ⟨hb, ?_⟩
    rw [hs]
    decide

lemma command_robot_mem {g : GeoFns} {rnd : CmdRand} {now : ℚ} {s : SimState}
    {id c : String} {kw : CmdKwargs} {p : String × RawRobot}
    (hp : p ∈ (command_robot g rnd now s id c kw).1.robots) :
    p ∈ s.robots ∨
      ∃ robot, s.robots.lookup id = some robot ∧
        p.2.battery = robot.battery ∧ p.2.status ≠ RobotStatus.charging := by
  unfold command_robot at hp
  split at hp
  · exact Or.inl hp
  · next robot heq =>
    by_cases h1 : c = "pause"
    · rw [if_pos h1] at hp
      split at hp
      · rcases dictInsert_mem hp with h2 | h2
        · exact Or.inl h2
        · exact Or.inr ⟨robot, heq, by rw [h2],
            by rw [h2]; exact (by decide : RobotStatus.idle ≠ RobotStatus.charging)⟩
      · exact Or.inl hp
    · rw [if_neg h1] at hp
      by_cases h2 : c = "resume"
      · rw [if_pos h2] at hp
        split at hp
        · rcases dictInsert_mem hp with h3 | h3
          · exact Or.inl h3
          · exact Or.inr ⟨robot, heq, by rw [h3],
              by rw [h3]; exact (by decide : RobotStatus.active ≠ RobotStatus.charging)⟩
        · exact Or.inl hp
      · rw [if_neg h2] at hp
        by_cases h3 : c = "send_to_charging"
        · rw [if_pos h3] at hp
          rcases dictInsert_mem hp with h4 | h4
          · exact Or.inl h4
          · exact Or.inr ⟨robot, heq, by rw [h4],
              by rw [h4]; exact (by decide : RobotStatus.active ≠ RobotStatus.charging)⟩
        · rw [if_neg h3] at hp
          by_cases h4 : c = "assign_task"
          · rw [if_pos h4] at hp
            rcases dictInsert_mem hp with h5 | h5
            · exact Or.inl h5
            · exact Or.inr ⟨robot, heq, by rw [h5],
              by rw [h5]; exact (by decide : RobotStatus.active ≠ RobotStatus.charging)⟩
          · rw [if_neg h4] at hp
            by_cases h5 : c = "clear_error"
            · rw [if_pos h5] at hp
              split at hp
              · rcases dictInsert_mem hp with h6 | h6
                · exact Or.inl h6
                · exact Or.inr ⟨robot, heq, by rw [h6],
                  by rw [h6]; exact (by decide : RobotStatus.idle ≠ RobotStatus.charging)⟩
              · exact Or.inl hp
            · rw [if_neg h5] at hp
              exact Or.inl hp

/-! ## Reachable-state invariant and the simulator claims -/

lemma reachable_invariant {g : GeoFns} {s : SimState} (h : Reachable g s) :
    ∀ p ∈ s.robots, BatOK p.2 ∧ ChgOK p.2 := by
  induction h with
  | base rnd now hbat =>
    intro p hp
    rcases init_fleet_facts rnd now p hp with ⟨⟨i, hb⟩, hs⟩
    refine ⟨⟨?_, ?_⟩, fun hc => absurd hc hs⟩
    · rw [hb]
      linarith [(hbat i).1]
    · rw [hb]
      exact (hbat i).2
  | tickStep s rnd now _ ih =>
    exact tick_pred (fun q => BatOK q.2 ∧ ChgOK q.2)
      (fun q c hq => ⟨robotTick_bat hq.1, robotTick_chg hq.2⟩) ih
  | cmdStep s rnd now id c kw _ ih =>
    intro p hp
    rcases command_robot_mem hp with h1 | ⟨robot, heq, hb2, hchg⟩
    · exact ih p h1
    · exact ⟨BatOK_of_battery_eq hb2 (ih (id, robot) (lookup_mem heq)).1,
        fun hc => absurd hc hchg⟩

/-- C7 (counterexample): the task-presence invariant fails as stated for IDLE
and freshly ERROR robots. Pausing the initially tasked robot BALYO-001
succeeds and leaves it IDLE while its task dict is still present (pause only
sets status and speed); and a fault roll on an actively tasked robot moves it
to ERROR with the task still attached (_maybe_generate_error never clears the
task). -/
theorem C7_task_counterexample :
    ((command_robot geo0 cmdR0 1 (init_fleet initR0 0) "BALYO-001" "pause"
        kw0).2.success = true ∧
      ((command_robot geo0 cmdR0 1 (init_fleet initR0 0) "BALYO-001" "pause"
          kw0).1.robots.lookup "BALYO-001").map
        (fun r => (r.status, r.task.isSome)) = some (RobotStatus.idle, true)) ∧
    ((maybe_generate_error ⟨true, ⟨"E1", "Fault", "d"⟩⟩ 5
        (assign_task (initR0.assign "B") 0 0
          (mkRobot "B" "Balyo" 0 0 50 0)).1).status = RobotStatus.error ∧
      (maybe_generate_error ⟨true, ⟨"E1", "Fault", "d"⟩⟩ 5
        (assign_task (initR0.assign "B") 0 0
          (mkRobot "B" "Balyo" 0 0 50 0)).1).task.isSome = true) :=
  ⟨⟨by decide, by decide⟩, by decide, by decide⟩

/-- C7 (amended): the CHARGING part of the task-presence invariant does hold:
in every reachable fleet state a CHARGING robot holds no task (docking clears
the task, and no transition into CHARGING preserves one). The IDLE and
freshly-ERROR parts of the spec sentence are refuted by the counterexample:
pause leaves an IDLE robot with its task, and a fault transition into ERROR
keeps the task attached. -/
theorem C7_charging_no_task (g : GeoFns) (s : SimState) (h : Reachable g s) :
    ∀ p ∈ s.robots, p.2.status = RobotStatus.charging → p.2.task = none :=
  fun p hp => (reachable_invariant h p hp).2

/-- C7 witness: the amended invariant applied at the freshly initialized
fleet, at robot AR-001 (untasked, not charging). -/
theorem C7_charging_no_task_witness :
    (("AR-001", mkRobot "AR-001" "Amazon Normal" 5 5 50 0) ∈
        (init_fleet initR0 0).robots) ∧
      ((mkRobot "AR-001" "Amazon Normal" 5 5 50 0).status =
          RobotStatus.charging →
        (mkRobot "AR-001" "Amazon Normal" 5 5 50 0).task = none) :=
  ⟨by decide,
    C7_charging_no_task geo0 (init_fleet initR0 0)
      (Reachable.base initR0 0 (fun i =>
        ⟨show (30 : ℚ) ≤ 50 by norm_num, show (50 : ℚ) ≤ 100 by norm_num⟩))
      ("AR-001", mkRobot "AR-001" "Amazon Normal" 5 5 50 0) (by decide)⟩

/-- C8: the battery range invariant holds. In every reachable fleet state —
after initialization (draws in [30, 100] ⊆ [0, 100]) and after any sequence
of ticks and commands (charging clamps at 100, draining clamps at 0, every
other update preserves the battery) — every robot battery lies in [0, 100]. -/
theorem C8_battery_range (g : GeoFns) (s : SimState) (h : Reachable g s) :
    ∀ p ∈ s.robots, 0 ≤ p.2.battery ∧ p.2.battery ≤ 100 :=
  fun p hp => (reachable_invariant h p hp).1

/-- C8 witness: the battery range at the freshly initialized fleet, at robot
AMZN-001 (battery draw 50). -/
theorem C8_battery_range_witness :
    (("AMZN-001", mkRobot "AMZN-001" "Amazon Internal" 8 7 50 0) ∈
        (init_fleet initR0 0).robots) ∧
      (0 ≤ (mkRobot "AMZN-001" "Amazon Internal" 8 7 50 0).battery ∧
        (mkRobot "AMZN-001" "Amazon Internal" 8 7 50 0).battery ≤ 100) :=
  ⟨by decide,
    C8_battery_range geo0 (init_fleet initR0 0)
      (Reachable.base initR0 0 (fun i =>
        ⟨show (30 : ℚ) ≤ 50 by norm_num, show (50 : ℚ) ≤ 100 by norm_num⟩))
      ("AMZN-001", mkRobot "AMZN-001" "Amazon Internal" 8 7 50 0) (by decide)⟩

/-- C9: command error handling holds. An unknown robot id yields the explicit
"Robot not found" failure with the state untouched; for a found robot the
result fails exactly when the command is pause on a non-ACTIVE robot, resume
without an IDLE status and a stored destination, clear_error without an
active error, or an unknown command string (send_to_charging and assign_task
always succeed); every failure leaves the state unchanged and carries a
typed message, and every success carries no error message. The embedding is
a total function, so no exception crosses the boundary. -/
theorem C9_command_results (g : GeoFns) (rnd : CmdRand) (now : ℚ)
    (s : SimState) (id c : String) (kw : CmdKwargs) :
    (s.robots.lookup id = none →
      command_robot g rnd now s id c kw =
        (s, ⟨false, some "Robot not found"⟩)) ∧
    (∀ robot, s.robots.lookup id = some robot →
      ((command_robot g rnd now s id c kw).2.success = false ↔
        ((c = "pause" ∧ robot.status ≠ RobotStatus.active) ∨
          (c = "resume" ∧
            ¬(robot.status = RobotStatus.idle ∧
              robot.task_destination.isSome)) ∨
          (c = "clear_error" ∧ robot.status ≠ RobotStatus.error) ∨
          (c ≠ "pause" ∧ c ≠ "resume" ∧ c ≠ "send_to_charging" ∧
            c ≠ "assign_task" ∧ c ≠ "clear_error")))) ∧
    ((command_robot g rnd now s id c kw).2.success = false →
      (command_robot g rnd now s id c kw).1 = s ∧
        ∃ m, (command_robot g rnd now s id c kw).2.message = some m) ∧
    ((command_robot g rnd now s id c kw).2.success = true →
      (command_robot g rnd now s id c kw).2.message = none) := by
  unfold command_robot
  cases hl : s.robots.lookup id with
  | none =>
    exact ⟨fun _ => rfl, fun r0 hr => Option.noConfusion hr,
      fun _ => ⟨rfl, ⟨"Robot not found", rfl⟩⟩,
      fun h => Bool.noConfusion (show false = true from h)⟩
  | some robot =>
    dsimp only
    refine ⟨fun h => Option.noConfusion h, ?_, ?_, ?_⟩
    · intro r0 hr
      injection hr with hr
      subst hr
      by_cases h1 : c = "pause"
      · subst h1
        by_cases hs : robot.status = RobotStatus.active <;> simp [hs]
      · by_cases h2 : c = "resume"
        · subst h2
          by_cases hs : robot.status = RobotStatus.idle ∧
              robot.task_destination.isSome <;> simp [hs]
        · by_cases h3 : c = "send_to_charging"
          · subst h3
            simp
          · by_cases h4 : c = "assign_task"
            · subst h4
              simp
            · by_cases h5 : c = "clear_error"
              · subst h5
                by_cases hs : robot.status = RobotStatus.error <;> simp [hs]
              · simp [h1, h2, h3, h4, h5]
    · intro h
      by_cases h1 : c = "pause"
      · subst h1
        by_cases hs : robot.status = RobotStatus.active
        · simp [hs] at h
        · simp [hs]
      · by_cases h2 : c = "resume"
        · subst h2
          by_cases hs : robot.status = RobotStatus.idle ∧
              robot.task_destination.isSome
          · simp [hs] at h
          · simp [hs]
        · by_cases h3 : c = "send_to_charging"
          · subst h3
            simp at h
          · by_cases h4 : c = "assign_task"
            · subst h4
              simp at h
            · by_cases h5 : c = "clear_error"
              · subst h5
                by_cases hs : robot.status = RobotStatus.error
                · simp [hs] at h
                · simp [hs]
              · simp [h1, h2, h3, h4, h5]
    · intro h
      by_cases h1 : c = "pause"
      · subst h1
        by_cases hs : robot.status = RobotStatus.active
        · simp [hs]
        · simp [hs] at h
      · by_cases h2 : c = "resume"
        · subst h2
          by_cases hs : robot.status = RobotStatus.idle ∧
              robot.task_destination.isSome
          · simp [hs]
          · simp [hs] at h
        · by_cases h3 : c = "send_to_charging"
          · subst h3
            simp
          · by_cases h4 : c = "assign_task"
            · subst h4
              simp
            · by_cases h5 : c = "clear_error"
              · subst h5
                by_cases hs : robot.status = RobotStatus.error
                · simp [hs]
                · simp [hs] at h
              · simp [h1, h2, h3, h4, h5] at h

/-- C9 witness: the not-found case at the initialized fleet. -/
theorem C9_command_results_witness :
    command_robot geo0 cmdR0 1 (init_fleet initR0 0) "GHOST-1" "pause" kw0 =
      ((init_fleet initR0 0), ⟨false, some "Robot not found"⟩) :=
  (C9_command_results geo0 cmdR0 1 (init_fleet initR0 0) "GHOST-1" "pause"
      kw0).1 (by decide)

end FleetBridge
